import Mathlib

/-!
Shallow embedding of the HC-05 automated-bonding Arduino sketch
(`HC-05_Automate_Communication.ino`, boolean-flag variant, and the enum-state
revision of the same sketch) together with proofs about its behaviour.

Strings of the sketch (Arduino `String`) are modelled as `List Char`; the
Arduino `String` member functions used by the sketch (`indexOf`, `substring`,
`replace`, `trim`, `startsWith`, `toInt`, `toCharArray`) and the C library
functions `atol`/`strtol` are embedded below, following the semantics of the
Arduino core library sources.  Array accesses of the sketch are modelled as
checked accesses returning `Option`; a `none` result models an out-of-bounds
access (undefined behaviour in the C++ source).
-/

abbrev Str := List Char

/-- Flag counter: `b2n` interprets a flag as 0 or 1, used to count active phase flags. -/
def b2n (b : Bool) : Nat := if b then 1 else 0


/-- Characters accepted by C `isspace` (the set used by Arduino `trim` and by
`atol`/`strtol` leading-whitespace skipping). -/
def isSpaceC (c : Char) : Bool :=
  c.toNat = 32 ∨ c.toNat = 9 ∨ c.toNat = 10 ∨ c.toNat = 11 ∨ c.toNat = 12 ∨ c.toNat = 13

/-- Decimal digit test, as in C `isdigit`. -/
def isDigitC (c : Char) : Bool := 48 ≤ c.toNat ∧ c.toNat ≤ 57

/-- Value of a hexadecimal digit, `none` for a non-digit (C `strtol` base 16). -/
def hexDigitVal (c : Char) : Option Nat :=
  if 48 ≤ c.toNat ∧ c.toNat ≤ 57 then some (c.toNat - 48)
  else if 65 ≤ c.toNat ∧ c.toNat ≤ 70 then some (c.toNat - 55)
  else if 97 ≤ c.toNat ∧ c.toNat ≤ 102 then some (c.toNat - 87)
  else none

/-- Fold a maximal run of hexadecimal digits, as the digit loop of `strtol`. -/
def hexDigits : Str → Nat → Nat
  | [], acc => acc
  | c :: cs, acc =>
    match hexDigitVal c with
    | some v => hexDigits cs (16 * acc + v)
    | none => acc

/-- Digit part of `strtol(s, NULL, 16)`: an optional `0x`/`0X` prefix followed
by hexadecimal digits. -/
def hexBody (l : Str) : Nat :=
  match l with
  | c0 :: c1 :: rest =>
    if c0 = '0' ∧ (c1 = 'x' ∨ c1 = 'X') then hexDigits rest 0
    else hexDigits (c0 :: c1 :: rest) 0
  | _ => hexDigits l 0

/-- C `strtol(s, NULL, 16)`: skip whitespace, optional sign, hex body. -/
def strtol16 (s : Str) : Int :=
  match s.dropWhile isSpaceC with
  | [] => 0
  | c :: rest =>
    if c = '-' then -(hexBody rest : Int)
    else if c = '+' then (hexBody rest : Int)
    else (hexBody (c :: rest) : Int)

/-- Fold a maximal run of decimal digits, as the digit loop of `atol`. -/
def decDigits : Str → Nat → Nat
  | [], acc => acc
  | c :: cs, acc => if isDigitC c then decDigits cs (10 * acc + (c.toNat - 48)) else acc

/-- Two's-complement wrap into the signed 32-bit `long` of the AVR target
(avr-gcc: `long` is 32 bits). The digit loop of `atol` accumulates in a
`long`, so its result wraps modulo 2^32. -/
def wrap32 (n : Int) : Int := (n + 2147483648) % 4294967296 - 2147483648

/-- Two's-complement wrap into the signed 16-bit `int` of the AVR target
(avr-gcc: `int` is 16 bits), as performed when a `long` expression is
assigned to an `int` variable such as `recentDeviceCount`. -/
def wrap16 (n : Int) : Int := (n + 32768) % 65536 - 32768

/-- C `atol` on the AVR target (the implementation of Arduino
`String::toInt`): skip whitespace, optional sign, then decimal digits
accumulated in a 32-bit `long` that wraps on overflow. -/
def atol (s : Str) : Int :=
  match s.dropWhile isSpaceC with
  | [] => 0
  | c :: rest =>
    if c = '-' then wrap32 (-(decDigits rest 0 : Int))
    else if c = '+' then wrap32 (decDigits rest 0 : Int)
    else wrap32 (decDigits (c :: rest) 0 : Int)

/-- Decimal value of a digit string (most significant digit first); the
reference meaning of "the decimal value of the substring". -/
def decValue (s : Str) : Nat := s.foldl (fun a c => 10 * a + (c.toNat - 48)) 0

/-- Arduino `String::indexOf(ch)`: index of the first occurrence, `-1` if the
character does not occur. -/
def indexOfC : Str → Char → Int
  | [], _ => -1
  | c :: cs, ch =>
    if c = ch then 0
    else
      match indexOfC cs ch with
      | -1 => -1
      | k => k + 1

/-- Conversion of a C `int` to `unsigned int` (Arduino `substring` takes
unsigned arguments while `indexOf` results are signed). -/
def toU32 (i : Int) : Nat := (i % 4294967296).toNat

/-- Arduino `String::substring(left, right)`: arguments converted to unsigned,
swapped if out of order, clamped to the length; returns the characters of
positions `[left, right)`. -/
def substrA (s : Str) (l r : Int) : Str :=
  let l32 := toU32 l
  let r32 := toU32 r
  let left := if l32 > r32 then r32 else l32
  let right := if l32 > r32 then l32 else r32
  if left ≥ s.length then []
  else (s.take (if right > s.length then s.length else right)).drop left

/-- Arduino `String::substring(left)` is `substring(left, len)`. -/
def substrFrom (s : Str) (l : Int) : Str := substrA s l s.length

/-- Arduino `String::replace(c1, c2)` on every character. -/
def replaceC (s : Str) (c1 c2 : Char) : Str := s.map fun c => if c = c1 then c2 else c

/-- Arduino `String::trim`: remove leading and trailing `isspace` characters. -/
def trimC (s : Str) : Str := ((s.dropWhile isSpaceC).reverse.dropWhile isSpaceC).reverse

/-- Arduino `String::startsWith(pat)`. -/
def startsWithC : Str → Str → Bool
  | _, [] => true
  | [], _ :: _ => false
  | c :: cs, p :: ps => c = p && startsWithC cs ps

/-- Model of `errCodeStr.toCharArray(errCodeHex, 2)` on a `char errCodeHex[2]` buffer:
Arduino `getBytes` copies at most `bufsize - 1 = 1` characters and
null-terminates, so the C string held by the buffer is the first character of
`errCodeStr` (empty if `errCodeStr` is empty). -/
def toCharArray2 (s : Str) : Str := s.take 1

/-- The 29-entry `ERRORMESSAGE` table of the sketch. -/
def ERRORMESSAGE : List Str :=
  [ ("Command Error/Invalid Command".toList),
    ("Results in default value".toList),
    ("PSKEY write error".toList),
    ("Device name is too long (>32 characters)".toList),
    ("No device name specified (0 length)".toList),
    ("Bluetooth address NAP is too long".toList),
    ("Bluetooth address UAP is too long".toList),
    ("Bluetooth address LAP is too long".toList),
    ("PIO map not specified (0 length)".toList),
    ("Invalid PIO port Number entered".toList),
    ("Device Class not specified (0 length)".toList),
    ("Device Class too long".toList),
    ("Inquire Access Code not Specified (0 length)".toList),
    ("Inquire Access Code too long".toList),
    ("Invalid Inquire Access Code entered".toList),
    ("Pairing Password not specified (0 length)".toList),
    ("Pairing Password too long (> 16 characters)".toList),
    ("Invalid Role entered".toList),
    ("Invalid Baud Rate entered".toList),
    ("Invalid Stop Bit entered".toList),
    ("Invalid Parity Bit entered".toList),
    ("No device in the Pairing List".toList),
    ("SPP not initialized".toList),
    ("SPP already initialized".toList),
    ("Invalid Inquiry Mode".toList),
    ("Inquiry Timeout occured".toList),
    ("Invalid/zero length address entered".toList),
    ("Invalid Security Mode entered".toList),
    ("Invalid Encryption Mode entered".toList) ]

/-- Checked read of a C array at a signed index: `none` models an
out-of-bounds access. -/
def arrGet (l : List Str) (i : Int) : Option Str :=
  if i < 0 then none else l.get? i.toNat

/-- The index `strtol(errCodeHex, NULL, 16)` computed by `getErrorMessage`
from the (truncated) two-character buffer. -/
def errIndex (s : Str) : Int := strtol16 (toCharArray2 s)

/-- Model of `getErrorMessage` of the sketch: truncating copy into a 2-byte buffer,
`strtol` base 16, then an (unchecked, here checked) `ERRORMESSAGE` lookup. -/
def getErrorMessage (errCodeStr : Str) : Option Str :=
  arrGet ERRORMESSAGE (errIndex errCodeStr)

/-! ### The boolean-flag variant (`HC-05_Automate_Communication.ino`)

The global variables of the sketch become a state record; scratch line buffers
(`incoming`, `outgoing`) are omitted because each is overwritten before use on
every loop pass.  `sent` records the lines written to `Serial1` (the command
channel), `pinReads` counts executions of `digitalRead(HC05_STATE_PIN)`, and
`pendingTimer` records whether a `t.after` callback for `Set_HC05_MODE` is
scheduled.  `HC05_MODE = true` is `AT_MODE` (HIGH); pin level `true` is
`CONNECTED`. -/

namespace Ino

structure State where
  SETTINGHC05MODE : Bool
  CHECKSTATE : Bool
  DO_ADCN : Bool
  LISTENNMEA : Bool
  COUNTINGRECENTDEVICES : Bool
  COUNTEDRECENTDEVICES : Bool
  SEARCHAUTHENTICATEDDEVICE : Bool
  CONNECTINGRECENTDEVICE : Bool
  SETTINGCONNECTIONMODE : Bool
  INITIATINGINQUIRY : Bool
  INQUIRINGDEVICES : Bool
  CONFRONTINGUSER : Bool
  SETTINGBINDADDRESS : Bool
  CONNECTINGTODEVICE : Bool
  INITIALIZING : Bool
  HC05_MODE : Bool
  HC05_STATE : Bool
  HC05_OLDSTATE : Bool
  deviceCount : Nat
  -- a 16-bit AVR `int`: every assignment goes through `wrap16`
  recentDeviceCount : Int
  currentDeviceIdx : Nat
  currentCMODE : Int
  currentFunctionStep : Nat
  devices : List Str
  currentDeviceAddr : Str
  currentDeviceName : Str
  pendingTimer : Bool
  pinReads : Nat
  sent : List Str
  deriving DecidableEq

/-- Checked write of `devices[i] = v` on the 15-slot array: `none` models the
out-of-bounds store (undefined behaviour). -/
def arrSet (l : List Str) (i : Nat) (v : Str) : Option (List Str) :=
  if i < l.length then some (l.set i v) else none

/-- Model of `flushOkString`: it reads and prints a pending trailing line (usually an `OK`)
from the module channel; it changes no machine state. -/
def flushOkString (s : State) : State := s

/-- One invocation of the timer-driven `Set_HC05_MODE` step sequence.  Each
branch that calls `t.after(..., Set_HC05_MODE)` sets `pendingTimer`. -/
def Set_HC05_MODE (s : State) : State :=
  if s.currentFunctionStep = 0 then
    let s := if s.HC05_MODE = true then {s with DO_ADCN := true} else s
    {s with currentFunctionStep := 1, pendingTimer := true}
  else if s.currentFunctionStep = 1 then
    {s with currentFunctionStep := 2, pendingTimer := true}
  else if s.currentFunctionStep = 2 then
    {s with currentFunctionStep := 3, pendingTimer := true}
  else if s.currentFunctionStep = 3 then
    if s.HC05_MODE = true then
      {s with currentFunctionStep := 4, INITIALIZING := true,
              sent := s.sent ++ [("AT+ROLE=1".toList)], pendingTimer := true}
    else
      {s with currentFunctionStep := 0, SETTINGHC05MODE := false}
  else if s.currentFunctionStep = 4 then
    {s with currentFunctionStep := 5, sent := s.sent ++ [("AT+CMODE=1".toList)],
            pendingTimer := true}
  else if s.currentFunctionStep = 5 then
    {s with currentFunctionStep := 6, sent := s.sent ++ [("AT+IPSCAN=1024,512,1024,512".toList)],
            pendingTimer := true}
  else if s.currentFunctionStep = 6 then
    {s with currentFunctionStep := 7, sent := s.sent ++ [("AT+INQM=1,15,12".toList)],
            pendingTimer := true}
  else if s.currentFunctionStep = 7 then
    {s with currentFunctionStep := 8, sent := s.sent ++ [("AT+PSWD=0000".toList)],
            pendingTimer := true}
  else if s.currentFunctionStep = 8 then
    {s with currentFunctionStep := 0, INITIALIZING := false, SETTINGHC05MODE := false}
  else s

/-- Model of `Check_HC05_STATE`: read the state pin (counted in `pinReads`), update
`HC05_OLDSTATE` and the LED on an edge; the read level is the return value. -/
def Check_HC05_STATE (pin : Bool) (s : State) : State :=
  let s := {s with pinReads := s.pinReads + 1}
  if pin ≠ s.HC05_OLDSTATE then {s with HC05_OLDSTATE := pin} else s

def CountRecentAuthenticatedDevices (s : State) : State :=
  {s with COUNTINGRECENTDEVICES := true, sent := s.sent ++ [("AT+ADCN".toList)]}

def CheckMostRecentAuthenticatedDevice (s : State) : State :=
  {s with COUNTEDRECENTDEVICES := true, sent := s.sent ++ [("AT+MRAD".toList)]}

def SearchAuthenticatedDevice (_addr : Str) (s : State) : State :=
  {s with SEARCHAUTHENTICATEDDEVICE := true, sent := s.sent ++ [("AT+INIT".toList)]}

def ConnectRecentAuthenticatedDevice (addr : Str) (s : State) : State :=
  {s with CONNECTINGRECENTDEVICE := true, sent := s.sent ++ [(("AT+LINK=".toList) ++ addr)]}

/-- Decimal rendering of an `int`, as Arduino `String(mode)`. -/
def intToStr (i : Int) : Str :=
  if i < 0 then '-' :: (Nat.repr (-i).toNat).toList else (Nat.repr i.toNat).toList

/-- Model of `SetConnectionMode(mode)`, which returns `mode`; every caller assigns the result
to `currentCMODE`, so the assignment is folded in here. -/
def SetConnectionMode (mode : Int) (s : State) : State :=
  {s with SETTINGCONNECTIONMODE := true, currentCMODE := mode,
          sent := s.sent ++ [(("AT+CMODE=".toList) ++ intToStr mode)]}

def InitiateInquiry (s : State) : State :=
  {s with INITIATINGINQUIRY := true, sent := s.sent ++ [("AT+INIT".toList)]}

def InquireDevices (s : State) : State :=
  {s with INQUIRINGDEVICES := true, sent := s.sent ++ [("AT+INQ".toList)]}

def ConfrontUserWithDevice (devicexAddr : Str) (s : State) : State :=
  {s with CONFRONTINGUSER := true, sent := s.sent ++ [(("AT+RNAME ".toList) ++ devicexAddr)]}

def SetBindAddress (s : State) : State :=
  {s with SETTINGBINDADDRESS := true, sent := s.sent ++ [(("AT+BIND=".toList) ++ s.currentDeviceAddr)]}

def LinkToCurrentDevice (devicexAddr : Str) (s : State) : State :=
  {s with CONNECTINGTODEVICE := true, sent := s.sent ++ [(("AT+LINK=".toList) ++ devicexAddr)]}

def resetAllVariables (s : State) : State :=
  {s with SETTINGHC05MODE := false, DO_ADCN := false, LISTENNMEA := false,
          COUNTINGRECENTDEVICES := false, COUNTEDRECENTDEVICES := false,
          SEARCHAUTHENTICATEDDEVICE := false, CONNECTINGRECENTDEVICE := false,
          SETTINGCONNECTIONMODE := false, INITIATINGINQUIRY := false,
          INQUIRINGDEVICES := false, CONFRONTINGUSER := false,
          SETTINGBINDADDRESS := false, CONNECTINGTODEVICE := false,
          INITIALIZING := false, deviceCount := 0, recentDeviceCount := 0,
          currentDeviceIdx := 0, currentFunctionStep := 0,
          devices := List.replicate 15 [], currentDeviceAddr := [],
          currentDeviceName := []}

/-- Top-of-loop section: the initial connected-state check (one-shot via
`CHECKSTATE`) and the deferred `AT+ADCN` kick-off via `DO_ADCN`. -/
def pollStep (s : State) (pin : Bool) : State :=
  if s.SETTINGHC05MODE = false ∧ s.CHECKSTATE = true then
    let s := {s with CHECKSTATE := false}
    let s := Check_HC05_STATE pin s
    let s := {s with HC05_STATE := pin}
    if pin = true then {s with LISTENNMEA := true}
    else Set_HC05_MODE {s with HC05_MODE := true, SETTINGHC05MODE := true}
  else if s.SETTINGHC05MODE = false ∧ s.CHECKSTATE = false ∧ s.DO_ADCN = true then
    CountRecentAuthenticatedDevices {s with DO_ADCN := false}
  else s

/-- The `while(devices[currentDeviceIdx] == devices[currentDeviceIdx-1])`
skip loop of the "N" answer handler; returns the final index. -/
def skipDupes (devs : List Str) (count : Nat) (i : Nat) : Option Nat :=
  match devs.get? i, devs.get? (i - 1) with
  | some a, some b =>
    if a = b then
      if h : i < count - 1 then skipDupes devs count (i + 1) else some i
    else some i
  | _, _ => none
termination_by count - i
decreasing_by omega

/-- The "N" (No) answer handler of the confirmation section: advance the
candidate index, skip over identical adjacent addresses, then either present
the next candidate or restart the inquiry. -/
def answerNo (s : State) : Option State :=
  let i := s.currentDeviceIdx + 1
  let s := {s with currentDeviceIdx := i}
  if i < s.deviceCount then
    match skipDupes s.devices s.deviceCount i with
    | none => none
    | some j =>
      let s := {s with currentDeviceIdx := j}
      match s.devices.get? j, s.devices.get? (j - 1) with
      | some a, some b =>
        if a ≠ b then some (ConfrontUserWithDevice a {s with currentDeviceAddr := a})
        else some (InitiateInquiry {s with CONFRONTINGUSER := false})
      | _, _ => none
  else some (InitiateInquiry {s with CONFRONTINGUSER := false})

/-- Serial-monitor section: a console line is a Y/N answer while a
confirmation is open, otherwise it is forwarded verbatim to the module. -/
def userStep (s : State) (line : Str) : Option State :=
  if s.CONFRONTINGUSER = true then
    if startsWithC line ("Y".toList) then
      some (SetConnectionMode 0 {s with CONFRONTINGUSER := false})
    else if startsWithC line ("N".toList) then answerNo s
    else some s
  else some {s with sent := s.sent ++ [line]}

/-- Case `COUNTINGRECENTDEVICES` of the response dispatch (the flag has
already been cleared by the chain). -/
def dispatchCounting (s : State) (line : Str) : Option State :=
  if startsWithC line ("+ADCN".toList) then
    let deviceCountStr := substrFrom line (indexOfC line ':' + 1)
    let n := wrap16 (atol deviceCountStr)
    let s := flushOkString {s with recentDeviceCount := n}
    if n > 0 then some (CheckMostRecentAuthenticatedDevice s)
    else some (SetConnectionMode 1 s)
  else some s

/-- Case `COUNTEDRECENTDEVICES` of the response dispatch. -/
def dispatchCounted (s : State) (line : Str) : Option State :=
  if startsWithC line ("+MRAD".toList) then
    let s := flushOkString s
    let idx := indexOfC line ':'
    if idx ≠ -1 then
      let addr := trimC (replaceC (substrFrom line (idx + 1)) ':' ',')
      some (SearchAuthenticatedDevice addr {s with currentDeviceAddr := addr})
    else some s
  else some s

/-- Case `SEARCHAUTHENTICATEDDEVICE`: `FAIL` and unrecognized lines only
print a diagnostic. -/
def dispatchSearch (s : State) (line : Str) : Option State :=
  if startsWithC line ("OK".toList) then
    some (ConnectRecentAuthenticatedDevice s.currentDeviceAddr s)
  else some s

/-- Case `CONNECTINGRECENTDEVICE`. -/
def dispatchConnectingRecent (s : State) (line : Str) : Option State :=
  if startsWithC line ("OK".toList) then some s
  else if startsWithC line ("FAIL".toList) then some (InquireDevices s)
  else some s

/-- Case `SETTINGCONNECTIONMODE`. -/
def dispatchSettingCMode (s : State) (line : Str) : Option State :=
  if startsWithC line ("OK".toList) then
    if s.currentCMODE = 1 then some (InitiateInquiry s)
    else if s.currentCMODE = 0 then some (SetBindAddress s)
    else some s
  else some s

/-- Case `INITIATINGINQUIRY`: in this variant every `ERROR` line resumes the
inquiry exactly like `OK` (the comment in the source reads "already
initiated, no problem, continue just the same"). -/
def dispatchInitiating (s : State) (line : Str) : Option State :=
  if startsWithC line ("OK".toList) then some (InquireDevices s)
  else if startsWithC line ("ERROR".toList) then some (InquireDevices s)
  else some s

/-- Case `INQUIRINGDEVICES`: the flag is cleared only on the terminating
`OK`; each `+INQ` line appends `devices[deviceCount++] = addr` unchecked. -/
def dispatchInquiring (s : State) (line : Str) : Option State :=
  if startsWithC line ("OK".toList) then
    let s := {s with INQUIRINGDEVICES := false, currentDeviceIdx := 0}
    if s.deviceCount > 0 then
      match s.devices.get? 0 with
      | some a => some (ConfrontUserWithDevice a {s with currentDeviceAddr := a})
      | none => none
    else some (InitiateInquiry s)
  else if startsWithC line ("+INQ".toList) then
    let idx := indexOfC line ':'
    let idx2 := indexOfC line ','
    let addr := trimC (replaceC (substrA line (idx + 1) idx2) ':' ',')
    match arrSet s.devices s.deviceCount addr with
    | some d => some {s with devices := d, deviceCount := s.deviceCount + 1}
    | none => none
  else some s

/-- Case `CONFRONTINGUSER`: `FAIL` and any other unrecognized line both
advance to the next candidate. -/
def dispatchConfronting (s : State) (line : Str) : Option State :=
  if startsWithC line ("+RNAME".toList) then
    let nm := substrFrom line (indexOfC line ':' + 1)
    some (flushOkString {s with currentDeviceName := nm})
  else
    let i := s.currentDeviceIdx + 1
    let s := {s with currentDeviceIdx := i}
    if i < s.deviceCount then
      match s.devices.get? i with
      | some a => some (ConfrontUserWithDevice a {s with currentDeviceAddr := a})
      | none => none
    else some (InitiateInquiry {s with CONFRONTINGUSER := false})

/-- Case `SETTINGBINDADDRESS`. -/
def dispatchSettingBind (s : State) (line : Str) : Option State :=
  if startsWithC line ("OK".toList) then
    some (LinkToCurrentDevice s.currentDeviceAddr s)
  else some s

/-- Case `CONNECTINGTODEVICE`: failure resets all bonding-transient state and
restarts the whole attempt in AT mode. -/
def dispatchConnectingToDevice (s : State) (line : Str) : Option State :=
  if startsWithC line ("OK".toList) then some {s with LISTENNMEA := true}
  else
    let s := resetAllVariables s
    some (Set_HC05_MODE {s with HC05_MODE := true, SETTINGHC05MODE := true})

/-- The response dispatch (the `if(FLAG){...} else if(FLAG){...}` chain run on
a complete line from the module; the chain clears the tested flag first in
every case except `INQUIRINGDEVICES` and `CONFRONTINGUSER`). -/
def dispatch (s : State) (line : Str) : Option State :=
  if s.COUNTINGRECENTDEVICES = true then
    dispatchCounting {s with COUNTINGRECENTDEVICES := false} line
  else if s.COUNTEDRECENTDEVICES = true then
    dispatchCounted {s with COUNTEDRECENTDEVICES := false} line
  else if s.SEARCHAUTHENTICATEDDEVICE = true then
    dispatchSearch {s with SEARCHAUTHENTICATEDDEVICE := false} line
  else if s.CONNECTINGRECENTDEVICE = true then
    dispatchConnectingRecent {s with CONNECTINGRECENTDEVICE := false} line
  else if s.SETTINGCONNECTIONMODE = true then
    dispatchSettingCMode {s with SETTINGCONNECTIONMODE := false} line
  else if s.INITIATINGINQUIRY = true then
    dispatchInitiating {s with INITIATINGINQUIRY := false} line
  else if s.INQUIRINGDEVICES = true then
    dispatchInquiring s line
  else if s.CONFRONTINGUSER = true then
    dispatchConfronting s line
  else if s.SETTINGBINDADDRESS = true then
    dispatchSettingBind {s with SETTINGBINDADDRESS := false} line
  else if s.CONNECTINGTODEVICE = true then
    dispatchConnectingToDevice {s with CONNECTINGTODEVICE := false} line
  else some s

/-- Module-channel section: discard while mode-switching, echo while
initializing, filter a junk first byte, otherwise dispatch the line. -/
def moduleStep (s : State) (line : Str) : Option State :=
  if s.SETTINGHC05MODE = true ∧ s.INITIALIZING = false then some s
  else if s.INITIALIZING = true then some s
  else
    match line with
    | [] => some s
    | c :: _ => if c.toNat ≠ 0 ∧ c.toNat < 127 then dispatch s line else some s

/-- A due timer callback fires `Set_HC05_MODE` once. -/
def timerStep (s : State) : State :=
  if s.pendingTimer = true then Set_HC05_MODE {s with pendingTimer := false} else s

/-- One observable event of the cooperative loop.  A loop pass is the
sequential composition of due timer callbacks, the poll section, an available
console line, and an available module line; each section is guarded
independently in the source, so a run of the sketch is a sequence of these
events. -/
inductive Ev where
  | poll (pin : Bool)
  | user (line : Str)
  | fromModule (line : Str)
  | timer
  deriving DecidableEq

def step (s : State) : Ev → Option State
  | .poll p => some (pollStep s p)
  | .user l => userStep s l
  | .fromModule l => moduleStep s l
  | .timer => some (timerStep s)

def runEvents (s : State) (evs : List Ev) : Option State :=
  evs.foldlM step s

/-- Global-variable initial values (C++ zero/explicit initialisation). -/
def boot : State :=
  { SETTINGHC05MODE := false, CHECKSTATE := true, DO_ADCN := false,
    LISTENNMEA := false, COUNTINGRECENTDEVICES := false,
    COUNTEDRECENTDEVICES := false, SEARCHAUTHENTICATEDDEVICE := false,
    CONNECTINGRECENTDEVICE := false, SETTINGCONNECTIONMODE := false,
    INITIATINGINQUIRY := false, INQUIRINGDEVICES := false,
    CONFRONTINGUSER := false, SETTINGBINDADDRESS := false,
    CONNECTINGTODEVICE := false, INITIALIZING := false,
    HC05_MODE := false, HC05_STATE := false, HC05_OLDSTATE := false,
    deviceCount := 0, recentDeviceCount := 0, currentDeviceIdx := 0,
    currentCMODE := 0, currentFunctionStep := 0,
    devices := List.replicate 15 [], currentDeviceAddr := [],
    currentDeviceName := [], pendingTimer := false, pinReads := 0, sent := [] }

/-- Model of `setup()`: start in communication mode and launch the mode sequence. -/
def initState : State :=
  Set_HC05_MODE {boot with HC05_MODE := false, SETTINGHC05MODE := true}

inductive Reach : State → Prop where
  | init : Reach initState
  | next {s s1 : State} {e : Ev} : Reach s → step s e = some s1 → Reach s1

/-- Number of active phase flags (the twelve phases named by the spec plus the
`DO_ADCN` latch; `SETTINGHC05MODE` and `INITIALIZING` are mode flags, not
phases). -/
def countActive (s : State) : Nat :=
  b2n s.CHECKSTATE + b2n s.DO_ADCN + b2n s.LISTENNMEA +
  b2n s.COUNTINGRECENTDEVICES + b2n s.COUNTEDRECENTDEVICES +
  b2n s.SEARCHAUTHENTICATEDDEVICE + b2n s.CONNECTINGRECENTDEVICE +
  b2n s.SETTINGCONNECTIONMODE + b2n s.INITIATINGINQUIRY +
  b2n s.INQUIRINGDEVICES + b2n s.CONFRONTINGUSER +
  b2n s.SETTINGBINDADDRESS + b2n s.CONNECTINGTODEVICE

end Ino

/-! ### The enum-state variant of the sketch

The revision that replaces the boolean phase flags by a single `PROGRAMSTATE`
enum.  Its loop additionally computes `PROGRAMSTATECHANGED` at the top of each
pass and dispatches an incoming module line through one of two `switch`
statements depending on that flag: the full dispatch when the program state
differed from `OLDPROGRAMSTATE` at the top of the pass, and a reduced dispatch
(`INQUIRINGDEVICES` and `CONFRONTINGUSER` cases only) otherwise. -/

namespace EnumV

inductive PState where
  | INITIALSTATECHECK
  | DO_ADCN
  | COUNTINGRECENTDEVICES
  | COUNTEDRECENTDEVICES
  | SEARCHAUTHENTICATEDDEVICE
  | CONNECTINGRECENTDEVICE
  | SETTINGCONNECTIONMODE
  | INITIATINGINQUIRY
  | INQUIRINGDEVICES
  | CONFRONTINGUSER
  | SETTINGBINDADDRESS
  | CONNECTINGTODEVICE
  | LISTENNMEA
  deriving DecidableEq

structure State where
  PROGRAMSTATE : PState
  OLDPROGRAMSTATE : PState
  PROGRAMSTATECHANGED : Bool
  SETTINGHC05MODE : Bool
  INITIALIZING : Bool
  HC05_MODE : Bool
  HC05_STATE : Bool
  HC05_OLDSTATE : Bool
  deviceCount : Nat
  -- a 16-bit AVR `int`: every assignment goes through `wrap16`
  recentDeviceCount : Int
  currentDeviceIdx : Nat
  currentCMODE : Int
  currentFunctionStep : Nat
  devices : List Str
  currentDeviceAddr : Str
  currentDeviceName : Str
  pendingTimer : Bool
  pinReads : Nat
  sent : List Str
  deriving DecidableEq

def Check_HC05_STATE (pin : Bool) (s : State) : State :=
  let s := {s with pinReads := s.pinReads + 1}
  if pin ≠ s.HC05_OLDSTATE then {s with HC05_OLDSTATE := pin} else s

def CountRecentAuthenticatedDevices (s : State) : State :=
  {s with PROGRAMSTATE := .COUNTINGRECENTDEVICES, sent := s.sent ++ [("AT+ADCN".toList)]}

def CheckMostRecentAuthenticatedDevice (s : State) : State :=
  {s with PROGRAMSTATE := .COUNTEDRECENTDEVICES, sent := s.sent ++ [("AT+MRAD".toList)]}

def SearchAuthenticatedDevice (_addr : Str) (s : State) : State :=
  {s with PROGRAMSTATE := .SEARCHAUTHENTICATEDDEVICE, sent := s.sent ++ [("AT+INIT".toList)]}

def ConnectRecentAuthenticatedDevice (addr : Str) (s : State) : State :=
  {s with PROGRAMSTATE := .CONNECTINGRECENTDEVICE, sent := s.sent ++ [(("AT+LINK=".toList) ++ addr)]}

/-- Model of `SetConnectionMode(mode)`, which returns `mode`; each caller assigns the result
to `currentCMODE`, folded in here. -/
def SetConnectionMode (mode : Int) (s : State) : State :=
  {s with PROGRAMSTATE := .SETTINGCONNECTIONMODE, currentCMODE := mode,
          sent := s.sent ++ [(("AT+CMODE=".toList) ++ Ino.intToStr mode)]}

def InitiateInquiry (s : State) : State :=
  {s with PROGRAMSTATE := .INITIATINGINQUIRY, sent := s.sent ++ [("AT+INIT".toList)]}

def InquireDevices (s : State) : State :=
  {s with PROGRAMSTATE := .INQUIRINGDEVICES, sent := s.sent ++ [("AT+INQ".toList)]}

def ConfrontUserWithDevice (devicexAddr : Str) (s : State) : State :=
  {s with PROGRAMSTATE := .CONFRONTINGUSER, sent := s.sent ++ [(("AT+RNAME ".toList) ++ devicexAddr)]}

def SetBindAddress (s : State) : State :=
  {s with PROGRAMSTATE := .SETTINGBINDADDRESS, sent := s.sent ++ [(("AT+BIND=".toList) ++ s.currentDeviceAddr)]}

def LinkToCurrentDevice (devicexAddr : Str) (s : State) : State :=
  {s with PROGRAMSTATE := .CONNECTINGTODEVICE, sent := s.sent ++ [(("AT+LINK=".toList) ++ devicexAddr)]}

/-- Model of `flushOkString`: drains a pending trailing line; no machine-state effect. -/
def flushOkString (s : State) : State := s

/-- In this variant `resetAllVariables` resets neither `PROGRAMSTATE` nor the
mode globals (the phase-flag resets of the older revision are commented out in
the source). -/
def resetAllVariables (s : State) : State :=
  {s with SETTINGHC05MODE := false, INITIALIZING := false, deviceCount := 0,
          recentDeviceCount := 0, currentDeviceIdx := 0, currentFunctionStep := 0,
          devices := List.replicate 15 [], currentDeviceAddr := [],
          currentDeviceName := []}

/-- One invocation of `Set_HC05_MODE`; in this variant step 0 itself raises
`SETTINGHC05MODE` and, when switching to AT mode, moves `PROGRAMSTATE` to
`DO_ADCN`. -/
def Set_HC05_MODE (s : State) : State :=
  if s.currentFunctionStep = 0 then
    let s := {s with SETTINGHC05MODE := true}
    let s := if s.HC05_MODE = true then {s with PROGRAMSTATE := .DO_ADCN} else s
    {s with currentFunctionStep := 1, pendingTimer := true}
  else if s.currentFunctionStep = 1 then
    {s with currentFunctionStep := 2, pendingTimer := true}
  else if s.currentFunctionStep = 2 then
    {s with currentFunctionStep := 3, pendingTimer := true}
  else if s.currentFunctionStep = 3 then
    if s.HC05_MODE = true then
      {s with currentFunctionStep := 4, INITIALIZING := true,
              sent := s.sent ++ [("AT+ROLE=1".toList)], pendingTimer := true}
    else
      {s with currentFunctionStep := 0, SETTINGHC05MODE := false}
  else if s.currentFunctionStep = 4 then
    {s with currentFunctionStep := 5, sent := s.sent ++ [("AT+CMODE=1".toList)],
            pendingTimer := true}
  else if s.currentFunctionStep = 5 then
    {s with currentFunctionStep := 6, sent := s.sent ++ [("AT+IPSCAN=1024,512,1024,512".toList)],
            pendingTimer := true}
  else if s.currentFunctionStep = 6 then
    {s with currentFunctionStep := 7, sent := s.sent ++ [("AT+INQM=1,15,12".toList)],
            pendingTimer := true}
  else if s.currentFunctionStep = 7 then
    {s with currentFunctionStep := 8, sent := s.sent ++ [("AT+PSWD=0000".toList)],
            pendingTimer := true}
  else if s.currentFunctionStep = 8 then
    {s with currentFunctionStep := 0, INITIALIZING := false, SETTINGHC05MODE := false}
  else s

/-- Top-of-loop section: compute `PROGRAMSTATECHANGED`, then the initial
state check / `DO_ADCN` dispatch. -/
def pollStep (s : State) (pin : Bool) : State :=
  let s :=
    if s.PROGRAMSTATE ≠ s.OLDPROGRAMSTATE then
      {s with PROGRAMSTATECHANGED := true, OLDPROGRAMSTATE := s.PROGRAMSTATE}
    else {s with PROGRAMSTATECHANGED := false}
  if s.SETTINGHC05MODE = false ∧ s.PROGRAMSTATE = .INITIALSTATECHECK then
    let s := Check_HC05_STATE pin s
    let s := {s with HC05_STATE := pin}
    if pin = true then {s with PROGRAMSTATE := .LISTENNMEA}
    else Set_HC05_MODE {s with HC05_MODE := true}
  else if s.SETTINGHC05MODE = false ∧ s.PROGRAMSTATE = .DO_ADCN then
    CountRecentAuthenticatedDevices s
  else s

/-- Serial-monitor section (identical logic to the flag variant, with the
`CONFRONTINGUSER` test on the enum). -/
def userStep (s : State) (line : Str) : Option State :=
  if s.PROGRAMSTATE = .CONFRONTINGUSER then
    if startsWithC line ("Y".toList) then
      some (SetConnectionMode 0 s)
    else if startsWithC line ("N".toList) then
      let i := s.currentDeviceIdx + 1
      let s := {s with currentDeviceIdx := i}
      if i < s.deviceCount then
        match Ino.skipDupes s.devices s.deviceCount i with
        | none => none
        | some j =>
          let s := {s with currentDeviceIdx := j}
          match s.devices.get? j, s.devices.get? (j - 1) with
          | some a, some b =>
            if a ≠ b then some (ConfrontUserWithDevice a {s with currentDeviceAddr := a})
            else some (InitiateInquiry s)
          | _, _ => none
      else some (InitiateInquiry s)
    else some s
  else some {s with sent := s.sent ++ [line]}

/-- The full dispatch `switch` run when `PROGRAMSTATECHANGED` was true. -/
def dispatchChanged (s : State) (line : Str) : Option State :=
  match s.PROGRAMSTATE with
  | .COUNTINGRECENTDEVICES =>
    if startsWithC line ("+ADCN".toList) then
      let deviceCountStr := substrFrom line (indexOfC line ':' + 1)
      let n := wrap16 (atol deviceCountStr)
      let s := flushOkString {s with recentDeviceCount := n}
      if n > 0 then some (CheckMostRecentAuthenticatedDevice s)
      else some (SetConnectionMode 1 s)
    else some s
  | .COUNTEDRECENTDEVICES =>
    if startsWithC line ("+MRAD".toList) then
      let s := flushOkString s
      let idx := indexOfC line ':'
      if idx ≠ -1 then
        let addr := trimC (replaceC (substrFrom line (idx + 1)) ':' ',')
        some (SearchAuthenticatedDevice addr {s with currentDeviceAddr := addr})
      else some s
    else some s
  | .SEARCHAUTHENTICATEDDEVICE =>
    if startsWithC line ("OK".toList) then
      some (ConnectRecentAuthenticatedDevice s.currentDeviceAddr s)
    else some s
  | .CONNECTINGRECENTDEVICE =>
    if startsWithC line ("OK".toList) then some s
    else if startsWithC line ("FAIL".toList) then some (InquireDevices s)
    else some s
  | .SETTINGCONNECTIONMODE =>
    if startsWithC line ("OK".toList) then
      if s.currentCMODE = 1 then some (InitiateInquiry s)
      else if s.currentCMODE = 0 then some (SetBindAddress s)
      else some s
    else some s
  | .INITIATINGINQUIRY =>
    if startsWithC line ("OK".toList) then some (InquireDevices s)
    else if startsWithC line ("ERROR".toList) then
      let idx1 := indexOfC line '('
      let idx2 := indexOfC line ')'
      let errCode := substrA line (idx1 + 1) idx2
      if errCode = ("17".toList) then some (InquireDevices s)
      else
        match getErrorMessage errCode with
        | some _ => some s
        | none => none
    else some s
  | .INQUIRINGDEVICES =>
    if startsWithC line ("OK".toList) then
      let s := {s with currentDeviceIdx := 0}
      if s.deviceCount > 0 then
        match s.devices.get? 0 with
        | some a => some (ConfrontUserWithDevice a {s with currentDeviceAddr := a})
        | none => none
      else some (InitiateInquiry s)
    else if startsWithC line ("+INQ".toList) then
      let idx := indexOfC line ':'
      let idx2 := indexOfC line ','
      let addr := trimC (replaceC (substrA line (idx + 1) idx2) ':' ',')
      match Ino.arrSet s.devices s.deviceCount addr with
      | some d => some {s with devices := d, deviceCount := s.deviceCount + 1}
      | none => none
    else some s
  | .CONFRONTINGUSER =>
    if startsWithC line ("+RNAME".toList) then
      let nm := substrFrom line (indexOfC line ':' + 1)
      some (flushOkString {s with currentDeviceName := nm})
    else
      let i := s.currentDeviceIdx + 1
      let s := {s with currentDeviceIdx := i}
      if i < s.deviceCount then
        match s.devices.get? i with
        | some a => some (ConfrontUserWithDevice a {s with currentDeviceAddr := a})
        | none => none
      else some (InitiateInquiry s)
  | .SETTINGBINDADDRESS =>
    if startsWithC line ("OK".toList) then
      some (LinkToCurrentDevice s.currentDeviceAddr s)
    else some s
  | .CONNECTINGTODEVICE =>
    if startsWithC line ("OK".toList) then some {s with PROGRAMSTATE := .LISTENNMEA}
    else
      let s := resetAllVariables s
      some (Set_HC05_MODE {s with HC05_MODE := true})
  | _ => some s

/-- The reduced dispatch `switch` run when `PROGRAMSTATECHANGED` was false:
only the `INQUIRINGDEVICES` and `CONFRONTINGUSER` cases exist. -/
def dispatchUnchanged (s : State) (line : Str) : Option State :=
  match s.PROGRAMSTATE with
  | .INQUIRINGDEVICES =>
    if startsWithC line ("OK".toList) then
      let s := {s with currentDeviceIdx := 0}
      if s.deviceCount > 0 then
        match s.devices.get? 0 with
        | some a => some (ConfrontUserWithDevice a {s with currentDeviceAddr := a})
        | none => none
      else some (InitiateInquiry s)
    else if startsWithC line ("+INQ".toList) then
      let idx := indexOfC line ':'
      let idx2 := indexOfC line ','
      let addr := trimC (replaceC (substrA line (idx + 1) idx2) ':' ',')
      match Ino.arrSet s.devices s.deviceCount addr with
      | some d => some {s with devices := d, deviceCount := s.deviceCount + 1}
      | none => none
    else some s
  | .CONFRONTINGUSER =>
    if startsWithC line ("+RNAME".toList) then
      let nm := substrFrom line (indexOfC line ':' + 1)
      some (flushOkString {s with currentDeviceName := nm})
    else
      let i := s.currentDeviceIdx + 1
      let s := {s with currentDeviceIdx := i}
      if i < s.deviceCount then
        match s.devices.get? i with
        | some a => some (ConfrontUserWithDevice a {s with currentDeviceAddr := a})
        | none => none
      else some (InitiateInquiry s)
  | _ => some s

/-- Module-channel section of the enum variant: discard while mode-switching,
echo while initializing, filter a junk first byte, then dispatch through the
switch selected by `PROGRAMSTATECHANGED`. -/
def moduleStep (s : State) (line : Str) : Option State :=
  if s.SETTINGHC05MODE = true ∧ s.INITIALIZING = false then some s
  else if s.INITIALIZING = true then some s
  else
    match line with
    | [] => some s
    | c :: _ =>
      if c.toNat ≠ 0 ∧ c.toNat < 127 then
        if s.PROGRAMSTATECHANGED = true then dispatchChanged s line
        else dispatchUnchanged s line
      else some s

def timerStep (s : State) : State :=
  if s.pendingTimer = true then Set_HC05_MODE {s with pendingTimer := false} else s

end EnumV

/-! ### Concrete runs and witness states -/

namespace Ino

/-- A `+INQ` response line as produced by the module during an inquiry. -/
def inqLine : Str := "+INQ:12:3:456789,7936,7FFF".toList

/-- Boot sequence reaching `INQUIRINGDEVICES` through the no-recent-devices
path: finish the communication-mode switch, find the module disconnected,
switch to AT mode (eight timed steps), issue `AT+ADCN`, receive count 0, set
connection mode, and start the inquiry. -/
def bootEvs : List Ev :=
  [ .timer, .timer, .timer, .poll false ] ++ List.replicate 8 Ev.timer ++
  [ .poll false, .fromModule ("+ADCN:0".toList), .fromModule ("OK".toList),
    .fromModule ("OK".toList) ]

/-- Boot sequence reaching `CONNECTINGRECENTDEVICE` through the
recent-device path (`+ADCN:1`, a `+MRAD` address, `OK` to `AT+INIT`). -/
def recentEvs : List Ev :=
  [ .timer, .timer, .timer, .poll false ] ++ List.replicate 8 Ev.timer ++
  [ .poll false, .fromModule ("+ADCN:1".toList),
    .fromModule ("+MRAD:2016:2:123456".toList), .fromModule ("OK".toList) ]

/-- Boot sequence reaching `COUNTINGRECENTDEVICES`: the common prefix of the
two paths above, stopping right after `AT+ADCN` is issued, so the machine is
awaiting the `+ADCN:<n>` count response. -/
def countingEvs : List Ev :=
  [ .timer, .timer, .timer, .poll false ] ++ List.replicate 8 Ev.timer ++
  [ .poll false ]

/-- A confirmation state whose first two discovered addresses are identical:
the user has been shown device 0 and the operator is about to answer "N". -/
def c9devices : List Str :=
  [("11,22,33".toList), ("11,22,33".toList), ("44,55,66".toList)] ++ List.replicate 12 []

def c9state : State :=
  {boot with CONFRONTINGUSER := true, deviceCount := 3, currentDeviceIdx := 0,
             devices := c9devices}

end Ino

namespace EnumV

/-- Global-variable initial values of the enum variant (`OLDPROGRAMSTATE` is a
zero-initialised `int`, i.e. the first enumerator `INITIALSTATECHECK`). -/
def boot : State :=
  { PROGRAMSTATE := .INITIALSTATECHECK, OLDPROGRAMSTATE := .INITIALSTATECHECK,
    PROGRAMSTATECHANGED := false, SETTINGHC05MODE := false, INITIALIZING := false,
    HC05_MODE := false, HC05_STATE := false, HC05_OLDSTATE := false,
    deviceCount := 0, recentDeviceCount := 0, currentDeviceIdx := 0,
    currentCMODE := 0, currentFunctionStep := 0,
    devices := List.replicate 15 [], currentDeviceAddr := [],
    currentDeviceName := [], pendingTimer := false, pinReads := 0, sent := [] }

/-- Model of `setup()` of the enum variant. -/
def initState : State := Set_HC05_MODE {boot with HC05_MODE := false}

/-- A state awaiting the `+ADCN` response with no phase change in the current
pass (the response arrived one pass after the command was dispatched). -/
def w10state : State :=
  {boot with PROGRAMSTATE := .COUNTINGRECENTDEVICES,
             OLDPROGRAMSTATE := .COUNTINGRECENTDEVICES}

/-- A freshly entered `INITIATINGINQUIRY` state awaiting the response to
`AT+INIT`. -/
def w8state : State :=
  {boot with PROGRAMSTATE := .INITIATINGINQUIRY,
             OLDPROGRAMSTATE := .SETTINGCONNECTIONMODE, PROGRAMSTATECHANGED := true}

end EnumV

/-- Timer/mode bookkeeping needed to make the phase-exclusion invariant
inductive: a scheduled `Set_HC05_MODE` callback is always mid-sequence, and a
nonzero sequence step implies the mode-switch flag is raised. -/
def ModeInv (s : Ino.State) : Prop :=
  (s.pendingTimer = true → s.currentFunctionStep ≠ 0)
  ∧ (s.currentFunctionStep ≠ 0 → s.SETTINGHC05MODE = true)

/-- The inductive invariant: at most one phase flag, plus timer bookkeeping. -/
def MachInv (s : Ino.State) : Prop := Ino.countActive s ≤ 1 ∧ ModeInv s

/-! ### Theorems -/

@[simp] theorem b2n_true : b2n true = 1 := rfl

@[simp] theorem b2n_false : b2n false = 0 := rfl

theorem hexDigitVal_lt_16 (c : Char) (v : Nat) (h : hexDigitVal c = some v) : v < 16 := by
  unfold hexDigitVal at h
  split_ifs at h <;> (injection h with h; omega)

theorem hexDigits_singleton (c : Char) : hexDigits [c] 0 < 16 := by
  unfold hexDigits
  cases h : hexDigitVal c with
  | none => simp
  | some v =>
    have := hexDigitVal_lt_16 c v h
    simpa [hexDigits] using this

/-- On a buffer of at most one character the `strtol` result is a single hex
digit value: nonnegative and below 16. -/
theorem strtol16_short (s : Str) (h : s.length ≤ 1) :
    0 ≤ strtol16 s ∧ strtol16 s < 16 := by
  match s, h with
  | [], _ => simp [strtol16]
  | [c], _ =>
    unfold strtol16
    by_cases hs : isSpaceC c
    · simp [List.dropWhile, hs]
    · simp only [List.dropWhile, hs]
      by_cases hm : c = '-'
      · simp [hm, hexBody, hexDigits]
      · by_cases hp : c = '+'
        · simp [hm, hp, hexBody, hexDigits]
        · have hb := hexDigits_singleton c
          simp only [hm, hp, if_false, hexBody]
          omega

theorem errIndex_bounds (s : Str) : 0 ≤ errIndex s ∧ errIndex s < 16 := by
  unfold errIndex
  apply strtol16_short
  unfold toCharArray2
  simp

/-- Every error-code string yields a successful in-bounds table lookup. -/
theorem getErrorMessage_isSome (s : Str) : (getErrorMessage s).isSome := by
  unfold getErrorMessage arrGet
  have h := errIndex_bounds s
  rw [if_neg (by omega)]
  rw [Option.isSome_iff_exists]
  have hlen : (errIndex s).toNat < ERRORMESSAGE.length := by
    have : ERRORMESSAGE.length = 29 := by rfl
    omega
  exact ⟨_, List.get?_eq_get hlen⟩

theorem runEvents_nil (s : Ino.State) : Ino.runEvents s [] = some s := rfl

theorem runEvents_cons (s : Ino.State) (e : Ino.Ev) (evs : List Ino.Ev) :
    Ino.runEvents s (e :: evs) = (Ino.step s e).bind fun m => Ino.runEvents m evs := by
  cases h : Ino.step s e <;> simp [Ino.runEvents, List.foldlM, h, Option.bind]

theorem reach_run : ∀ (evs : List Ino.Ev) (s s1 : Ino.State),
    Ino.Reach s → Ino.runEvents s evs = some s1 → Ino.Reach s1 := by
  intro evs
  induction evs with
  | nil =>
    intro s s1 hs h
    rw [runEvents_nil] at h
    cases h
    exact hs
  | cons e evs ih =>
    intro s s1 hs h
    rw [runEvents_cons] at h
    cases hstep : Ino.step s e with
    | none => rw [hstep] at h; simp at h
    | some mid =>
      rw [hstep] at h
      exact ih mid s1 (Ino.Reach.next hs hstep) h

/-- Claim C1: the `+INQ` handler appends with no capacity check.  From a
reachable `INQUIRINGDEVICES` state, fifteen `+INQ` lines fill the 15-slot
`devices` array; the sixteenth line executes `devices[15] = addr`, an
out-of-bounds store (modelled as `none`, undefined behaviour in the C++
source).  Nothing drops the oldest discovery: the list is never trimmed, the
write simply leaves the array. -/
theorem inq_append_overflows_at_16th_line :
    (Ino.runEvents Ino.initState
        (Ino.bootEvs ++ List.replicate 15 (Ino.Ev.fromModule Ino.inqLine))).map
      (fun s => (s.deviceCount, s.INQUIRINGDEVICES)) = some (15, true)
    ∧ Ino.runEvents Ino.initState
        (Ino.bootEvs ++ List.replicate 16 (Ino.Ev.fromModule Ino.inqLine)) = none :=
  ⟨rfl, rfl⟩

/-- Claim C4: `getErrorMessage` copies the code through a two-byte buffer, so
only the first hex digit survives: code string "11" yields table entry 1
("Results in default value"), not entry 17 ("Invalid Role entered") as the
two-digit hex value 0x11 = 17 would demand. -/
theorem getErrorMessage_code_11_truncated :
    getErrorMessage ("11".toList) = some ("Results in default value".toList)
    ∧ arrGet ERRORMESSAGE 17 = some ("Invalid Role entered".toList)
    ∧ getErrorMessage ("11".toList) ≠ some ("Invalid Role entered".toList) := by
  refine ⟨rfl, rfl, ?_⟩
  decide

/-- Claim C5, counterexample: the code string "1D" has hex value 29, outside
the table range 0–28, yet `getErrorMessage` reports no parse error: it
performs an ordinary successful lookup (of entry 1, via the truncated first
digit) and returns that unrelated message. -/
theorem out_of_range_code_silently_mapped :
    errIndex ("1D".toList) = 1
    ∧ getErrorMessage ("1D".toList) = some ("Results in default value".toList) :=
  ⟨rfl, rfl⟩

/-- Claim C5, amended: for every error-code string the index actually used is
within 0..15 (only the first character is parsed as hex), hence always within
the 29-entry table; no out-of-bounds access occurs, but out-of-range codes are
never detected or reported. -/
theorem errormessage_lookup_in_bounds (s : Str) :
    0 ≤ errIndex s ∧ errIndex s < 16 ∧ (getErrorMessage s).isSome :=
  ⟨(errIndex_bounds s).1, (errIndex_bounds s).2, getErrorMessage_isSome s⟩

/-- Claim C2, counterexample: with the module connected at boot, the status
pin is read exactly once over six loop passes; the passes after the initial
boot-time check do not re-sample it. -/
theorem status_pin_sampled_only_once :
    (Ino.runEvents Ino.initState
        [ .timer, .timer, .timer, .poll true, .poll true, .poll true ]).map
      (fun s => (s.pinReads, s.LISTENNMEA)) = some (1, true) := rfl

/-- Claim C3, counterexample: from a reachable `CONNECTINGRECENTDEVICE` state
a `FAIL` line moves the machine directly to `INQUIRINGDEVICES` and sends the
inquiry-run command `AT+INQ`; it does not enter `INITIATINGINQUIRY` and sends
no `AT+INIT`. -/
theorem fail_recent_device_enters_inquiring_run :
    (Ino.runEvents Ino.initState Ino.recentEvs).map
        (fun s => s.CONNECTINGRECENTDEVICE) = some true
    ∧ (Ino.runEvents Ino.initState
          (Ino.recentEvs ++ [Ino.Ev.fromModule ("FAIL".toList)])).map
        (fun s => (s.INITIATINGINQUIRY, s.INQUIRINGDEVICES, s.sent.getLast?))
      = some (false, true, some ("AT+INQ".toList)) :=
  ⟨rfl, rfl⟩

/-- Claim C6, counterexample: a reachable state with zero active phase flags.
After the recent-device path reaches `CONNECTINGRECENTDEVICE`, the `OK`
response clears that flag and sets no successor, so no phase flag at all
remains set. -/
theorem zero_active_phases_reachable :
    ∃ s, Ino.Reach s ∧ Ino.countActive s = 0 := by
  have hm : (Ino.runEvents Ino.initState
      (Ino.recentEvs ++ [Ino.Ev.fromModule ("OK".toList)])).map Ino.countActive
      = some 0 := rfl
  cases h : Ino.runEvents Ino.initState
      (Ino.recentEvs ++ [Ino.Ev.fromModule ("OK".toList)]) with
  | none => rw [h] at hm; cases hm
  | some s =>
    rw [h] at hm
    refine ⟨s, reach_run _ _ _ Ino.Reach.init h, ?_⟩
    injection hm

theorem ca_CountRecent (t : Ino.State) :
    Ino.countActive (Ino.CountRecentAuthenticatedDevices t)
      = Ino.countActive t + (1 - b2n t.COUNTINGRECENTDEVICES) := by
  cases h : t.COUNTINGRECENTDEVICES <;>
    (simp [Ino.countActive, Ino.CountRecentAuthenticatedDevices, h]; try omega)

theorem ca_CheckMostRecent (t : Ino.State) :
    Ino.countActive (Ino.CheckMostRecentAuthenticatedDevice t)
      = Ino.countActive t + (1 - b2n t.COUNTEDRECENTDEVICES) := by
  cases h : t.COUNTEDRECENTDEVICES <;>
    (simp [Ino.countActive, Ino.CheckMostRecentAuthenticatedDevice, h]; try omega)

theorem ca_Search (a : Str) (t : Ino.State) :
    Ino.countActive (Ino.SearchAuthenticatedDevice a t)
      = Ino.countActive t + (1 - b2n t.SEARCHAUTHENTICATEDDEVICE) := by
  cases h : t.SEARCHAUTHENTICATEDDEVICE <;>
    (simp [Ino.countActive, Ino.SearchAuthenticatedDevice, h]; try omega)

theorem ca_ConnectRecent (a : Str) (t : Ino.State) :
    Ino.countActive (Ino.ConnectRecentAuthenticatedDevice a t)
      = Ino.countActive t + (1 - b2n t.CONNECTINGRECENTDEVICE) := by
  cases h : t.CONNECTINGRECENTDEVICE <;>
    (simp [Ino.countActive, Ino.ConnectRecentAuthenticatedDevice, h]; try omega)

theorem ca_SetCMode (m : Int) (t : Ino.State) :
    Ino.countActive (Ino.SetConnectionMode m t)
      = Ino.countActive t + (1 - b2n t.SETTINGCONNECTIONMODE) := by
  cases h : t.SETTINGCONNECTIONMODE <;>
    (simp [Ino.countActive, Ino.SetConnectionMode, h]; try omega)

theorem ca_InitInq (t : Ino.State) :
    Ino.countActive (Ino.InitiateInquiry t)
      = Ino.countActive t + (1 - b2n t.INITIATINGINQUIRY) := by
  cases h : t.INITIATINGINQUIRY <;>
    (simp [Ino.countActive, Ino.InitiateInquiry, h]; try omega)

theorem ca_InqDev (t : Ino.State) :
    Ino.countActive (Ino.InquireDevices t)
      = Ino.countActive t + (1 - b2n t.INQUIRINGDEVICES) := by
  cases h : t.INQUIRINGDEVICES <;>
    (simp [Ino.countActive, Ino.InquireDevices, h]; try omega)

theorem ca_Confront (a : Str) (t : Ino.State) :
    Ino.countActive (Ino.ConfrontUserWithDevice a t)
      = Ino.countActive t + (1 - b2n t.CONFRONTINGUSER) := by
  cases h : t.CONFRONTINGUSER <;>
    (simp [Ino.countActive, Ino.ConfrontUserWithDevice, h]; try omega)

theorem ca_SetBind (t : Ino.State) :
    Ino.countActive (Ino.SetBindAddress t)
      = Ino.countActive t + (1 - b2n t.SETTINGBINDADDRESS) := by
  cases h : t.SETTINGBINDADDRESS <;>
    (simp [Ino.countActive, Ino.SetBindAddress, h]; try omega)

theorem ca_Link (a : Str) (t : Ino.State) :
    Ino.countActive (Ino.LinkToCurrentDevice a t)
      = Ino.countActive t + (1 - b2n t.CONNECTINGTODEVICE) := by
  cases h : t.CONNECTINGTODEVICE <;>
    (simp [Ino.countActive, Ino.LinkToCurrentDevice, h]; try omega)

theorem ca_reset (t : Ino.State) :
    Ino.countActive (Ino.resetAllVariables t) = b2n t.CHECKSTATE := by
  simp [Ino.countActive, Ino.resetAllVariables]

theorem ca_clear_CHECKSTATE (s : Ino.State) :
    Ino.countActive {s with CHECKSTATE := false}
      = Ino.countActive s - b2n s.CHECKSTATE := by
  cases h : s.CHECKSTATE <;> (simp [Ino.countActive, h]; try omega)

theorem ca_clear_DO_ADCN (s : Ino.State) :
    Ino.countActive {s with DO_ADCN := false}
      = Ino.countActive s - b2n s.DO_ADCN := by
  cases h : s.DO_ADCN <;> (simp [Ino.countActive, h]; try omega)

theorem ca_clear_COUNTING (s : Ino.State) :
    Ino.countActive {s with COUNTINGRECENTDEVICES := false}
      = Ino.countActive s - b2n s.COUNTINGRECENTDEVICES := by
  cases h : s.COUNTINGRECENTDEVICES <;> (simp [Ino.countActive, h]; try omega)

theorem ca_clear_COUNTED (s : Ino.State) :
    Ino.countActive {s with COUNTEDRECENTDEVICES := false}
      = Ino.countActive s - b2n s.COUNTEDRECENTDEVICES := by
  cases h : s.COUNTEDRECENTDEVICES <;> (simp [Ino.countActive, h]; try omega)

theorem ca_clear_SEARCH (s : Ino.State) :
    Ino.countActive {s with SEARCHAUTHENTICATEDDEVICE := false}
      = Ino.countActive s - b2n s.SEARCHAUTHENTICATEDDEVICE := by
  cases h : s.SEARCHAUTHENTICATEDDEVICE <;> (simp [Ino.countActive, h]; try omega)

theorem ca_clear_CONNRECENT (s : Ino.State) :
    Ino.countActive {s with CONNECTINGRECENTDEVICE := false}
      = Ino.countActive s - b2n s.CONNECTINGRECENTDEVICE := by
  cases h : s.CONNECTINGRECENTDEVICE <;> (simp [Ino.countActive, h]; try omega)

theorem ca_clear_SETTINGCM (s : Ino.State) :
    Ino.countActive {s with SETTINGCONNECTIONMODE := false}
      = Ino.countActive s - b2n s.SETTINGCONNECTIONMODE := by
  cases h : s.SETTINGCONNECTIONMODE <;> (simp [Ino.countActive, h]; try omega)

theorem ca_clear_INITIATING (s : Ino.State) :
    Ino.countActive {s with INITIATINGINQUIRY := false}
      = Ino.countActive s - b2n s.INITIATINGINQUIRY := by
  cases h : s.INITIATINGINQUIRY <;> (simp [Ino.countActive, h]; try omega)

theorem ca_clear_SETTINGBIND (s : Ino.State) :
    Ino.countActive {s with SETTINGBINDADDRESS := false}
      = Ino.countActive s - b2n s.SETTINGBINDADDRESS := by
  cases h : s.SETTINGBINDADDRESS <;> (simp [Ino.countActive, h]; try omega)

theorem ca_clear_CONNTODEV (s : Ino.State) :
    Ino.countActive {s with CONNECTINGTODEVICE := false}
      = Ino.countActive s - b2n s.CONNECTINGTODEVICE := by
  cases h : s.CONNECTINGTODEVICE <;> (simp [Ino.countActive, h]; try omega)

theorem ca_clear_CONFRONTING (s : Ino.State) :
    Ino.countActive {s with CONFRONTINGUSER := false}
      = Ino.countActive s - b2n s.CONFRONTINGUSER := by
  cases h : s.CONFRONTINGUSER <;> (simp [Ino.countActive, h]; try omega)

theorem ca_clear_INQ_idx (s : Ino.State) :
    Ino.countActive {s with INQUIRINGDEVICES := false, currentDeviceIdx := 0}
      = Ino.countActive s - b2n s.INQUIRINGDEVICES := by
  cases h : s.INQUIRINGDEVICES <;> (simp [Ino.countActive, h]; try omega)

theorem ca_set_LISTEN (s : Ino.State) :
    Ino.countActive {s with LISTENNMEA := true}
      = Ino.countActive s + (1 - b2n s.LISTENNMEA) := by
  cases h : s.LISTENNMEA <;> (simp [Ino.countActive, h]; try omega)

theorem ca_idx (s : Ino.State) (i : Nat) :
    Ino.countActive {s with currentDeviceIdx := i} = Ino.countActive s := rfl

theorem ca_addr (s : Ino.State) (a : Str) :
    Ino.countActive {s with currentDeviceAddr := a} = Ino.countActive s := rfl

theorem ca_name (s : Ino.State) (a : Str) :
    Ino.countActive {s with currentDeviceName := a} = Ino.countActive s := rfl

theorem ca_recent (s : Ino.State) (n : Int) :
    Ino.countActive {s with recentDeviceCount := n} = Ino.countActive s := rfl

theorem ca_devs (s : Ino.State) (d : List Str) :
    Ino.countActive {s with devices := d, deviceCount := s.deviceCount + 1}
      = Ino.countActive s := rfl

theorem ca_sent (s : Ino.State) (l : Str) :
    Ino.countActive {s with sent := s.sent ++ [l]} = Ino.countActive s := rfl

theorem ca_hcstate (s : Ino.State) (p : Bool) :
    Ino.countActive {s with HC05_STATE := p} = Ino.countActive s := rfl

theorem ca_Check (pin : Bool) (t : Ino.State) :
    Ino.countActive (Ino.Check_HC05_STATE pin t) = Ino.countActive t := by
  simp only [Ino.Check_HC05_STATE]
  split_ifs <;> rfl

theorem ca_idx_addr (s : Ino.State) (i : Nat) (a : Str) :
    Ino.countActive {s with currentDeviceIdx := i, currentDeviceAddr := a}
      = Ino.countActive s := rfl

theorem ca_clear_CONF_idx (s : Ino.State) (i : Nat) :
    Ino.countActive {s with currentDeviceIdx := i, CONFRONTINGUSER := false}
      = Ino.countActive s - b2n s.CONFRONTINGUSER := by
  cases h : s.CONFRONTINGUSER <;> (simp [Ino.countActive, h]; try omega)

theorem ca_clear_INQ_idx_addr (s : Ino.State) (a : Str) :
    Ino.countActive {s with INQUIRINGDEVICES := false, currentDeviceIdx := 0,
                            currentDeviceAddr := a}
      = Ino.countActive s - b2n s.INQUIRINGDEVICES := by
  cases h : s.INQUIRINGDEVICES <;> (simp [Ino.countActive, h]; try omega)

theorem inv_dispatchCounting (s : Ino.State) (line : Str) (s1 : Ino.State)
    (hc : Ino.countActive s = 0) (hm : ModeInv s)
    (h : Ino.dispatchCounting s line = some s1) :
    Ino.countActive s1 ≤ 1 ∧ ModeInv s1 := by
  simp only [Ino.dispatchCounting, Ino.flushOkString] at h
  split_ifs at h <;> cases h <;> refine ⟨?_, hm⟩ <;>
    simp only [ca_CheckMostRecent, ca_SetCMode, ca_recent, hc] <;> omega

theorem inv_dispatchCounted (s : Ino.State) (line : Str) (s1 : Ino.State)
    (hc : Ino.countActive s = 0) (hm : ModeInv s)
    (h : Ino.dispatchCounted s line = some s1) :
    Ino.countActive s1 ≤ 1 ∧ ModeInv s1 := by
  simp only [Ino.dispatchCounted, Ino.flushOkString] at h
  split_ifs at h <;> cases h <;> refine ⟨?_, hm⟩ <;>
    simp only [ca_Search, ca_addr, hc] <;> omega

theorem inv_dispatchSearch (s : Ino.State) (line : Str) (s1 : Ino.State)
    (hc : Ino.countActive s = 0) (hm : ModeInv s)
    (h : Ino.dispatchSearch s line = some s1) :
    Ino.countActive s1 ≤ 1 ∧ ModeInv s1 := by
  simp only [Ino.dispatchSearch] at h
  split_ifs at h <;> cases h <;> refine ⟨?_, hm⟩ <;>
    simp only [ca_ConnectRecent, hc] <;> omega

theorem inv_dispatchConnectingRecent (s : Ino.State) (line : Str) (s1 : Ino.State)
    (hc : Ino.countActive s = 0) (hm : ModeInv s)
    (h : Ino.dispatchConnectingRecent s line = some s1) :
    Ino.countActive s1 ≤ 1 ∧ ModeInv s1 := by
  simp only [Ino.dispatchConnectingRecent] at h
  split_ifs at h <;> cases h <;> refine ⟨?_, hm⟩ <;>
    simp only [ca_InqDev, hc] <;> omega

theorem inv_dispatchSettingCMode (s : Ino.State) (line : Str) (s1 : Ino.State)
    (hc : Ino.countActive s = 0) (hm : ModeInv s)
    (h : Ino.dispatchSettingCMode s line = some s1) :
    Ino.countActive s1 ≤ 1 ∧ ModeInv s1 := by
  simp only [Ino.dispatchSettingCMode] at h
  split_ifs at h <;> cases h <;> refine ⟨?_, hm⟩ <;>
    simp only [ca_InitInq, ca_SetBind, hc] <;> omega

theorem inv_dispatchInitiating (s : Ino.State) (line : Str) (s1 : Ino.State)
    (hc : Ino.countActive s = 0) (hm : ModeInv s)
    (h : Ino.dispatchInitiating s line = some s1) :
    Ino.countActive s1 ≤ 1 ∧ ModeInv s1 := by
  simp only [Ino.dispatchInitiating] at h
  split_ifs at h <;> cases h <;> refine ⟨?_, hm⟩ <;>
    simp only [ca_InqDev, hc] <;> omega

theorem inv_dispatchSettingBind (s : Ino.State) (line : Str) (s1 : Ino.State)
    (hc : Ino.countActive s = 0) (hm : ModeInv s)
    (h : Ino.dispatchSettingBind s line = some s1) :
    Ino.countActive s1 ≤ 1 ∧ ModeInv s1 := by
  simp only [Ino.dispatchSettingBind] at h
  split_ifs at h <;> cases h <;> refine ⟨?_, hm⟩ <;>
    simp only [ca_Link, hc] <;> omega

/-- Lemma: `Set_HC05_MODE` at a nonzero step touches no phase flag. -/
theorem ca_Set_ne0 (t : Ino.State) (h : t.currentFunctionStep ≠ 0) :
    Ino.countActive (Ino.Set_HC05_MODE t) = Ino.countActive t := by
  simp only [Ino.Set_HC05_MODE]
  split_ifs <;> first | rfl | (exact absurd (by assumption) h)

/-- Lemma: `Set_HC05_MODE` at step 0 gives this explicit result. -/
theorem Set_step0 (t : Ino.State) (h : t.currentFunctionStep = 0) :
    Ino.Set_HC05_MODE t
      = (if t.HC05_MODE = true then {t with DO_ADCN := true, currentFunctionStep := 1, pendingTimer := true}
         else {t with currentFunctionStep := 1, pendingTimer := true}) := by
  simp only [Ino.Set_HC05_MODE, h, if_true]
  split_ifs <;> simp_all

/-- Lemma: `Set_HC05_MODE` raises the active-phase count by at most one (it can only
set the `DO_ADCN` latch, in step 0). -/
theorem ca_Set_le (t : Ino.State) :
    Ino.countActive (Ino.Set_HC05_MODE t) ≤ Ino.countActive t + 1 := by
  by_cases h : t.currentFunctionStep = 0
  · rw [Set_step0 t h]
    split_ifs with hm
    · cases hd : t.DO_ADCN <;> (simp [Ino.countActive, hd]; try omega)
    · simp [Ino.countActive]
  · rw [ca_Set_ne0 t h]
    omega

theorem b2n_le_count_CHECK (s : Ino.State) : b2n s.CHECKSTATE ≤ Ino.countActive s := by
  simp only [Ino.countActive]
  omega

theorem ca_DOADCN_step_pend (t : Ino.State) :
    Ino.countActive {t with DO_ADCN := true, currentFunctionStep := 1, pendingTimer := true}
      = Ino.countActive t + (1 - b2n t.DO_ADCN) := by
  cases h : t.DO_ADCN <;> (simp [Ino.countActive, h]; try omega)

theorem ca_step_pend (t : Ino.State) :
    Ino.countActive {t with currentFunctionStep := 1, pendingTimer := true}
      = Ino.countActive t := rfl

theorem ca_mode_set (t : Ino.State) :
    Ino.countActive {t with HC05_MODE := true, SETTINGHC05MODE := true}
      = Ino.countActive t := rfl

theorem inv_dispatchInquiring (s : Ino.State) (line : Str) (s1 : Ino.State)
    (hc : Ino.countActive s ≤ 1) (hf : s.INQUIRINGDEVICES = true) (hm : ModeInv s)
    (h : Ino.dispatchInquiring s line = some s1) :
    Ino.countActive s1 ≤ 1 ∧ ModeInv s1 := by
  simp only [Ino.dispatchInquiring] at h
  split_ifs at h <;> (repeat' split at h) <;> (try cases h) <;> refine ⟨?_, hm⟩ <;>
    (try simp only [ca_Confront, ca_InitInq, ca_clear_INQ_idx, ca_clear_INQ_idx_addr,
      ca_devs]) <;> (try simp only [hf, b2n_true, b2n_false]) <;> omega

theorem inv_dispatchConfronting (s : Ino.State) (line : Str) (s1 : Ino.State)
    (hc : Ino.countActive s ≤ 1) (hf : s.CONFRONTINGUSER = true) (hm : ModeInv s)
    (h : Ino.dispatchConfronting s line = some s1) :
    Ino.countActive s1 ≤ 1 ∧ ModeInv s1 := by
  simp only [Ino.dispatchConfronting, Ino.flushOkString] at h
  split_ifs at h <;> (repeat' split at h) <;> (try cases h) <;> refine ⟨?_, hm⟩ <;>
    (try simp only [ca_Confront, ca_InitInq, ca_clear_CONF_idx, ca_idx_addr, ca_idx,
      ca_name]) <;> (try simp only [hf, b2n_true, b2n_false]) <;> omega

theorem inv_set_from_zero (t : Ino.State) (h0 : t.currentFunctionStep = 0)
    (hpm : t.HC05_MODE = true) (hs : t.SETTINGHC05MODE = true)
    (hc : Ino.countActive t = 0) :
    Ino.countActive (Ino.Set_HC05_MODE t) ≤ 1 ∧ ModeInv (Ino.Set_HC05_MODE t) := by
  rw [Set_step0 t h0, if_pos hpm]
  refine ⟨?_, fun _ => Nat.one_ne_zero, fun _ => hs⟩
  rw [ca_DOADCN_step_pend, hc]
  omega

theorem inv_dispatchConnectingToDevice (s : Ino.State) (line : Str) (s1 : Ino.State)
    (hc : Ino.countActive s = 0) (hm : ModeInv s)
    (h : Ino.dispatchConnectingToDevice s line = some s1) :
    Ino.countActive s1 ≤ 1 ∧ ModeInv s1 := by
  simp only [Ino.dispatchConnectingToDevice] at h
  split_ifs at h <;> cases h
  · constructor
    · simp only [ca_set_LISTEN, hc]
      omega
    · exact hm
  · have hreset : Ino.countActive (Ino.resetAllVariables s) = 0 := by
      have h1 := ca_reset s
      have h2 := b2n_le_count_CHECK s
      omega
    exact inv_set_from_zero _ rfl rfl rfl (by rw [ca_mode_set, hreset])

theorem ca_pend (s : Ino.State) :
    Ino.countActive {s with pendingTimer := false} = Ino.countActive s := rfl

theorem inv_answerNo (s : Ino.State) (s1 : Ino.State)
    (hc : Ino.countActive s ≤ 1) (hf : s.CONFRONTINGUSER = true) (hm : ModeInv s)
    (h : Ino.answerNo s = some s1) :
    Ino.countActive s1 ≤ 1 ∧ ModeInv s1 := by
  simp only [Ino.answerNo] at h
  split_ifs at h <;> (repeat' split at h) <;> (try cases h) <;> refine ⟨?_, hm⟩ <;>
    (try simp only [ca_Confront, ca_InitInq, ca_clear_CONF_idx, ca_idx_addr, ca_idx]) <;>
    (try simp only [hf, b2n_true, b2n_false]) <;> omega

theorem inv_userStep (s : Ino.State) (line : Str) (s1 : Ino.State)
    (hc : Ino.countActive s ≤ 1) (hm : ModeInv s)
    (h : Ino.userStep s line = some s1) :
    Ino.countActive s1 ≤ 1 ∧ ModeInv s1 := by
  unfold Ino.userStep at h
  split_ifs at h with hcf hY hN
  · cases h
    refine ⟨?_, hm⟩
    rw [ca_SetCMode, ca_clear_CONFRONTING, hcf, b2n_true]
    omega
  · exact inv_answerNo s s1 hc hcf hm h
  · cases h
    exact ⟨hc, hm⟩
  · cases h
    refine ⟨?_, hm⟩
    rw [ca_sent]
    exact hc

theorem inv_dispatch (s : Ino.State) (line : Str) (s1 : Ino.State)
    (hc : Ino.countActive s ≤ 1) (hm : ModeInv s)
    (h : Ino.dispatch s line = some s1) :
    Ino.countActive s1 ≤ 1 ∧ ModeInv s1 := by
  unfold Ino.dispatch at h
  by_cases h1 : s.COUNTINGRECENTDEVICES = true
  · rw [if_pos h1] at h
    refine inv_dispatchCounting _ line s1 ?_ ?_ h
    · rw [ca_clear_COUNTING, h1, b2n_true]
      omega
    · exact hm
  rw [if_neg h1] at h
  by_cases h2 : s.COUNTEDRECENTDEVICES = true
  · rw [if_pos h2] at h
    refine inv_dispatchCounted _ line s1 ?_ ?_ h
    · rw [ca_clear_COUNTED, h2, b2n_true]
      omega
    · exact hm
  rw [if_neg h2] at h
  by_cases h3 : s.SEARCHAUTHENTICATEDDEVICE = true
  · rw [if_pos h3] at h
    refine inv_dispatchSearch _ line s1 ?_ ?_ h
    · rw [ca_clear_SEARCH, h3, b2n_true]
      omega
    · exact hm
  rw [if_neg h3] at h
  by_cases h4 : s.CONNECTINGRECENTDEVICE = true
  · rw [if_pos h4] at h
    refine inv_dispatchConnectingRecent _ line s1 ?_ ?_ h
    · rw [ca_clear_CONNRECENT, h4, b2n_true]
      omega
    · exact hm
  rw [if_neg h4] at h
  by_cases h5 : s.SETTINGCONNECTIONMODE = true
  · rw [if_pos h5] at h
    refine inv_dispatchSettingCMode _ line s1 ?_ ?_ h
    · rw [ca_clear_SETTINGCM, h5, b2n_true]
      omega
    · exact hm
  rw [if_neg h5] at h
  by_cases h6 : s.INITIATINGINQUIRY = true
  · rw [if_pos h6] at h
    refine inv_dispatchInitiating _ line s1 ?_ ?_ h
    · rw [ca_clear_INITIATING, h6, b2n_true]
      omega
    · exact hm
  rw [if_neg h6] at h
  by_cases h7 : s.INQUIRINGDEVICES = true
  · rw [if_pos h7] at h
    exact inv_dispatchInquiring s line s1 hc h7 hm h
  rw [if_neg h7] at h
  by_cases h8 : s.CONFRONTINGUSER = true
  · rw [if_pos h8] at h
    exact inv_dispatchConfronting s line s1 hc h8 hm h
  rw [if_neg h8] at h
  by_cases h9 : s.SETTINGBINDADDRESS = true
  · rw [if_pos h9] at h
    refine inv_dispatchSettingBind _ line s1 ?_ ?_ h
    · rw [ca_clear_SETTINGBIND, h9, b2n_true]
      omega
    · exact hm
  rw [if_neg h9] at h
  by_cases h10 : s.CONNECTINGTODEVICE = true
  · rw [if_pos h10] at h
    refine inv_dispatchConnectingToDevice _ line s1 ?_ ?_ h
    · rw [ca_clear_CONNTODEV, h10, b2n_true]
      omega
    · exact hm
  rw [if_neg h10] at h
  cases h
  exact ⟨hc, hm⟩

theorem inv_moduleStep (s : Ino.State) (line : Str) (s1 : Ino.State)
    (hI : MachInv s) (h : Ino.moduleStep s line = some s1) : MachInv s1 := by
  unfold Ino.moduleStep at h
  split_ifs at h
  · cases h; exact hI
  · cases h; exact hI
  · cases line with
    | nil => cases h; exact hI
    | cons c cs =>
      simp only at h
      split_ifs at h
      · exact inv_dispatch s (c :: cs) s1 hI.1 hI.2 h
      · cases h; exact hI

theorem modeinv_Set_ne0 (t : Ino.State) (hne : t.currentFunctionStep ≠ 0)
    (hset : t.SETTINGHC05MODE = true) (hp : t.pendingTimer = false) :
    ModeInv (Ino.Set_HC05_MODE t) := by
  unfold Ino.Set_HC05_MODE
  split_ifs <;>
    first
      | (exact absurd (by assumption) hne)
      | (refine ⟨?_, ?_⟩ <;> intro hx <;> simp_all)

theorem inv_timerStep (s : Ino.State) (hI : MachInv s) : MachInv (Ino.timerStep s) := by
  obtain ⟨hc, hm⟩ := hI
  unfold Ino.timerStep
  split_ifs with hp
  · have hne : s.currentFunctionStep ≠ 0 := hm.1 hp
    have hset : s.SETTINGHC05MODE = true := hm.2 hne
    constructor
    · rw [ca_Set_ne0 {s with pendingTimer := false} hne, ca_pend]
      exact hc
    · exact modeinv_Set_ne0 _ hne hset rfl
  · exact ⟨hc, hm⟩

set_option maxHeartbeats 1000000 in
theorem inv_pollStep (s : Ino.State) (pin : Bool) (hI : MachInv s) :
    MachInv (Ino.pollStep s pin) := by
  obtain ⟨hc, hm⟩ := hI
  by_cases h1 : s.SETTINGHC05MODE = false ∧ s.CHECKSTATE = true
  · obtain ⟨hset, hchk⟩ := h1
    have hstep0 : s.currentFunctionStep = 0 := by
      by_contra hne
      rw [hm.2 hne] at hset
      cases hset
    simp only [Ino.countActive, hchk, b2n_true] at hc
    simp [Ino.pollStep, Ino.Check_HC05_STATE, hset, hchk]
    split_ifs
    · exact ⟨by simp only [Ino.countActive, b2n_true, b2n_false]; omega,
        fun hx => hm.1 hx, fun hx => absurd hstep0 hx⟩
    · exact ⟨by simp only [Ino.countActive, b2n_true, b2n_false]; omega,
        fun hx => hm.1 hx, fun hx => absurd hstep0 hx⟩
    · exact inv_set_from_zero _ hstep0 rfl rfl
        (by simp only [Ino.countActive, b2n_true, b2n_false]; omega)
    · exact inv_set_from_zero _ hstep0 rfl rfl
        (by simp only [Ino.countActive, b2n_true, b2n_false]; omega)
  · by_cases h2 : s.SETTINGHC05MODE = false ∧ s.CHECKSTATE = false ∧ s.DO_ADCN = true
    · obtain ⟨hset, hchk, hda⟩ := h2
      have hstep0 : s.currentFunctionStep = 0 := by
        by_contra hne
        rw [hm.2 hne] at hset
        cases hset
      simp only [Ino.countActive, hda, b2n_true] at hc
      simp [Ino.pollStep, Ino.CountRecentAuthenticatedDevices, hset, hchk, hda]
      exact ⟨by simp only [Ino.countActive, b2n_true, b2n_false]; omega,
        fun hx => hm.1 hx, fun hx => absurd hstep0 hx⟩
    · have hps : Ino.pollStep s pin = s := by
        unfold Ino.pollStep
        rw [if_neg h1, if_neg h2]
      rw [hps]
      exact ⟨hc, hm⟩

theorem inv_step (s : Ino.State) (e : Ino.Ev) (s1 : Ino.State)
    (hI : MachInv s) (h : Ino.step s e = some s1) : MachInv s1 := by
  cases e with
  | poll p =>
    cases h
    exact inv_pollStep s p hI
  | user l => exact inv_userStep s l s1 hI.1 hI.2 h
  | fromModule l => exact inv_moduleStep s l s1 hI h
  | timer =>
    cases h
    exact inv_timerStep s hI

theorem inv_initState : MachInv Ino.initState := by
  refine ⟨by decide, fun _ => by decide, fun _ => rfl⟩

theorem inv_reach (s : Ino.State) (h : Ino.Reach s) : MachInv s := by
  induction h with
  | init => exact inv_initState
  | next hr hstep ih => exact inv_step _ _ _ ih hstep

theorem pr_Set (t : Ino.State) : (Ino.Set_HC05_MODE t).pinReads = t.pinReads := by
  simp only [Ino.Set_HC05_MODE]
  split_ifs <;> rfl

theorem pr_dispatchCounting (s : Ino.State) (line : Str) (s1 : Ino.State)
    (h : Ino.dispatchCounting s line = some s1) : s1.pinReads = s.pinReads := by
  simp only [Ino.dispatchCounting, Ino.flushOkString] at h
  split_ifs at h <;> cases h <;> rfl

theorem pr_dispatchCounted (s : Ino.State) (line : Str) (s1 : Ino.State)
    (h : Ino.dispatchCounted s line = some s1) : s1.pinReads = s.pinReads := by
  simp only [Ino.dispatchCounted, Ino.flushOkString] at h
  split_ifs at h <;> cases h <;> rfl

theorem pr_dispatchSearch (s : Ino.State) (line : Str) (s1 : Ino.State)
    (h : Ino.dispatchSearch s line = some s1) : s1.pinReads = s.pinReads := by
  simp only [Ino.dispatchSearch] at h
  split_ifs at h <;> cases h <;> rfl

theorem pr_dispatchConnectingRecent (s : Ino.State) (line : Str) (s1 : Ino.State)
    (h : Ino.dispatchConnectingRecent s line = some s1) : s1.pinReads = s.pinReads := by
  simp only [Ino.dispatchConnectingRecent] at h
  split_ifs at h <;> cases h <;> rfl

theorem pr_dispatchSettingCMode (s : Ino.State) (line : Str) (s1 : Ino.State)
    (h : Ino.dispatchSettingCMode s line = some s1) : s1.pinReads = s.pinReads := by
  simp only [Ino.dispatchSettingCMode] at h
  split_ifs at h <;> cases h <;> rfl

theorem pr_dispatchInitiating (s : Ino.State) (line : Str) (s1 : Ino.State)
    (h : Ino.dispatchInitiating s line = some s1) : s1.pinReads = s.pinReads := by
  simp only [Ino.dispatchInitiating] at h
  split_ifs at h <;> cases h <;> rfl

theorem pr_dispatchInquiring (s : Ino.State) (line : Str) (s1 : Ino.State)
    (h : Ino.dispatchInquiring s line = some s1) : s1.pinReads = s.pinReads := by
  simp only [Ino.dispatchInquiring] at h
  split_ifs at h <;> (repeat' split at h) <;> (try cases h) <;> rfl

theorem pr_dispatchConfronting (s : Ino.State) (line : Str) (s1 : Ino.State)
    (h : Ino.dispatchConfronting s line = some s1) : s1.pinReads = s.pinReads := by
  simp only [Ino.dispatchConfronting, Ino.flushOkString] at h
  split_ifs at h <;> (repeat' split at h) <;> (try cases h) <;> rfl

theorem pr_dispatchSettingBind (s : Ino.State) (line : Str) (s1 : Ino.State)
    (h : Ino.dispatchSettingBind s line = some s1) : s1.pinReads = s.pinReads := by
  simp only [Ino.dispatchSettingBind] at h
  split_ifs at h <;> cases h <;> rfl

theorem pr_dispatchConnectingToDevice (s : Ino.State) (line : Str) (s1 : Ino.State)
    (h : Ino.dispatchConnectingToDevice s line = some s1) : s1.pinReads = s.pinReads := by
  simp only [Ino.dispatchConnectingToDevice] at h
  split_ifs at h <;> cases h
  · rfl
  · rw [pr_Set]
    rfl

theorem pr_dispatch (s : Ino.State) (line : Str) (s1 : Ino.State)
    (h : Ino.dispatch s line = some s1) : s1.pinReads = s.pinReads := by
  unfold Ino.dispatch at h
  by_cases h1 : s.COUNTINGRECENTDEVICES = true
  · rw [if_pos h1] at h
    have hx := pr_dispatchCounting _ _ _ h
    exact hx
  rw [if_neg h1] at h
  by_cases h2 : s.COUNTEDRECENTDEVICES = true
  · rw [if_pos h2] at h
    have hx := pr_dispatchCounted _ _ _ h
    exact hx
  rw [if_neg h2] at h
  by_cases h3 : s.SEARCHAUTHENTICATEDDEVICE = true
  · rw [if_pos h3] at h
    have hx := pr_dispatchSearch _ _ _ h
    exact hx
  rw [if_neg h3] at h
  by_cases h4 : s.CONNECTINGRECENTDEVICE = true
  · rw [if_pos h4] at h
    have hx := pr_dispatchConnectingRecent _ _ _ h
    exact hx
  rw [if_neg h4] at h
  by_cases h5 : s.SETTINGCONNECTIONMODE = true
  · rw [if_pos h5] at h
    have hx := pr_dispatchSettingCMode _ _ _ h
    exact hx
  rw [if_neg h5] at h
  by_cases h6 : s.INITIATINGINQUIRY = true
  · rw [if_pos h6] at h
    have hx := pr_dispatchInitiating _ _ _ h
    exact hx
  rw [if_neg h6] at h
  by_cases h7 : s.INQUIRINGDEVICES = true
  · rw [if_pos h7] at h
    have hx := pr_dispatchInquiring _ _ _ h
    exact hx
  rw [if_neg h7] at h
  by_cases h8 : s.CONFRONTINGUSER = true
  · rw [if_pos h8] at h
    have hx := pr_dispatchConfronting _ _ _ h
    exact hx
  rw [if_neg h8] at h
  by_cases h9 : s.SETTINGBINDADDRESS = true
  · rw [if_pos h9] at h
    have hx := pr_dispatchSettingBind _ _ _ h
    exact hx
  rw [if_neg h9] at h
  by_cases h10 : s.CONNECTINGTODEVICE = true
  · rw [if_pos h10] at h
    have hx := pr_dispatchConnectingToDevice _ _ _ h
    exact hx
  rw [if_neg h10] at h
  cases h
  rfl

theorem pr_answerNo (s : Ino.State) (s1 : Ino.State)
    (h : Ino.answerNo s = some s1) : s1.pinReads = s.pinReads := by
  simp only [Ino.answerNo] at h
  split_ifs at h <;> (repeat' split at h) <;> (try cases h) <;> rfl

theorem pr_userStep (s : Ino.State) (line : Str) (s1 : Ino.State)
    (h : Ino.userStep s line = some s1) : s1.pinReads = s.pinReads := by
  unfold Ino.userStep at h
  split_ifs at h
  · cases h; rfl
  · exact pr_answerNo _ _ h
  · cases h; rfl
  · cases h; rfl

theorem pr_moduleStep (s : Ino.State) (line : Str) (s1 : Ino.State)
    (h : Ino.moduleStep s line = some s1) : s1.pinReads = s.pinReads := by
  unfold Ino.moduleStep at h
  split_ifs at h
  · cases h; rfl
  · cases h; rfl
  · cases line with
    | nil => cases h; rfl
    | cons c cs =>
      simp only at h
      split_ifs at h
      · exact pr_dispatch _ _ _ h
      · cases h; rfl

theorem pr_timerStep (s : Ino.State) : (Ino.timerStep s).pinReads = s.pinReads := by
  unfold Ino.timerStep
  split_ifs
  · rw [pr_Set]
  · rfl

theorem pr_pollStep (s : Ino.State) (pin : Bool) :
    (Ino.pollStep s pin).pinReads
      = s.pinReads
        + (if s.SETTINGHC05MODE = false ∧ s.CHECKSTATE = true then 1 else 0) := by
  by_cases h1 : s.SETTINGHC05MODE = false ∧ s.CHECKSTATE = true
  · obtain ⟨hset, hchk⟩ := h1
    simp [Ino.pollStep, Ino.Check_HC05_STATE, hset, hchk]
    split_ifs <;> simp [pr_Set]
  · rw [if_neg h1]
    unfold Ino.pollStep
    rw [if_neg h1]
    split_ifs
    · rfl
    · rfl

/-- Claim C2, amended: the status input is read only by the top-of-loop
section, and there only when mode-switching is idle and the one-shot
`CHECKSTATE` flag is still set — the initial boot-time check.  Console,
module-response and timer processing never read the pin, so after the initial
check the status is never re-sampled. -/
theorem status_pin_read_guard (s : Ino.State) (pin : Bool) (line : Str) :
    (Ino.pollStep s pin).pinReads
      = s.pinReads
        + (if s.SETTINGHC05MODE = false ∧ s.CHECKSTATE = true then 1 else 0)
    ∧ (Ino.timerStep s).pinReads = s.pinReads
    ∧ (∀ s1, Ino.userStep s line = some s1 → s1.pinReads = s.pinReads)
    ∧ (∀ s1, Ino.moduleStep s line = some s1 → s1.pinReads = s.pinReads) :=
  ⟨pr_pollStep s pin, pr_timerStep s,
   fun s1 h => pr_userStep s line s1 h,
   fun s1 h => pr_moduleStep s line s1 h⟩

theorem status_pin_read_guard_witness :
    (Ino.pollStep Ino.boot true).pinReads = Ino.boot.pinReads + 1
    ∧ ({Ino.boot with sent := [(['X'] : Str)]} : Ino.State).pinReads
        = Ino.boot.pinReads := by
  have h := status_pin_read_guard Ino.boot true ['X']
  constructor
  · have h1 := h.1
    rw [if_pos (by decide)] at h1
    exact h1
  · exact h.2.2.1 _ (by decide)

/-- Claim C6, amended: in every reachable state at most one of the thirteen
phase flags (the twelve spec phases plus the `DO_ADCN` latch) is active —
"never two" holds — but not "never zero": a terminal or unrecognized response
clears the active flag without setting a successor (see the accompanying
counterexample reaching a zero-flag state). -/
theorem at_most_one_phase_active (s : Ino.State) (h : Ino.Reach s) :
    Ino.countActive s ≤ 1 :=
  (inv_reach s h).1

theorem at_most_one_phase_active_witness :
    Ino.Reach Ino.initState ∧ Ino.countActive Ino.initState ≤ 1 :=
  ⟨Ino.Reach.init, at_most_one_phase_active Ino.initState Ino.Reach.init⟩

/-- Claim C3, amended: in phase `CONNECTINGRECENTDEVICE` a `FAIL` response
line moves the machine to phase `INQUIRINGDEVICES` and sends the inquiry-run
command `AT+INQ` (not to `INITIATINGINQUIRY` with `AT+INIT`); it never stalls
on this failure. -/
theorem fail_recent_device_transition (s : Ino.State) (rest : Str)
    (hset : s.SETTINGHC05MODE = false) (hini : s.INITIALIZING = false)
    (h1 : s.COUNTINGRECENTDEVICES = false) (h2 : s.COUNTEDRECENTDEVICES = false)
    (h3 : s.SEARCHAUTHENTICATEDDEVICE = false)
    (h4 : s.CONNECTINGRECENTDEVICE = true) :
    Ino.moduleStep s (("FAIL".toList) ++ rest)
      = some (Ino.InquireDevices {s with CONNECTINGRECENTDEVICE := false})
    ∧ (Ino.InquireDevices {s with CONNECTINGRECENTDEVICE := false}).INQUIRINGDEVICES = true
    ∧ (Ino.InquireDevices {s with CONNECTINGRECENTDEVICE := false}).INITIATINGINQUIRY
        = s.INITIATINGINQUIRY
    ∧ (Ino.InquireDevices {s with CONNECTINGRECENTDEVICE := false}).sent
        = s.sent ++ [("AT+INQ".toList)] := by
  refine ⟨?_, rfl, rfl, rfl⟩
  have hline : ("FAIL".toList) ++ rest = 'F' :: 'A' :: 'I' :: 'L' :: rest := rfl
  rw [hline]
  unfold Ino.moduleStep Ino.dispatch Ino.dispatchConnectingRecent
  simp [hset, hini, h1, h2, h3, h4, startsWithC]

theorem fail_recent_device_transition_witness :
    Ino.moduleStep {Ino.boot with CHECKSTATE := false, CONNECTINGRECENTDEVICE := true}
        ("FAIL".toList)
      = some (Ino.InquireDevices
          {({Ino.boot with CHECKSTATE := false, CONNECTINGRECENTDEVICE := true} : Ino.State)
            with CONNECTINGRECENTDEVICE := false}) := by
  have h := fail_recent_device_transition
    {Ino.boot with CHECKSTATE := false, CONNECTINGRECENTDEVICE := true} []
    rfl rfl rfl rfl rfl rfl
  simpa using h.1

theorem isSpaceC_of_digit (c : Char) (h : isDigitC c = true) : isSpaceC c = false := by
  simp [isDigitC] at h
  simp [isSpaceC]
  omega

theorem decDigits_all (d : Str) (hd : ∀ c ∈ d, isDigitC c = true) :
    ∀ acc, decDigits d acc = d.foldl (fun a c => 10 * a + (c.toNat - 48)) acc := by
  induction d with
  | nil => intro acc; rfl
  | cons c cs ih =>
    intro acc
    have hc : isDigitC c = true := hd c (List.mem_cons_self c cs)
    simp only [decDigits, hc, if_true, List.foldl_cons]
    exact ih (fun x hx => hd x (List.mem_cons_of_mem c hx)) _

theorem wrap16_wrap32 (n : Int) : wrap16 (wrap32 n) = wrap16 n := by
  unfold wrap16 wrap32
  omega

theorem atol_digits (d : Str) (hne : d ≠ []) (hd : ∀ c ∈ d, isDigitC c = true) :
    atol d = wrap32 (decValue d : Int) := by
  cases d with
  | nil => exact absurd rfl hne
  | cons c cs =>
    have hc : isDigitC c = true := hd c (List.mem_cons_self c cs)
    have hsp : isSpaceC c = false := isSpaceC_of_digit c hc
    have hcn : 48 ≤ c.toNat ∧ c.toNat ≤ 57 := by simpa [isDigitC] using hc
    have hminus : c ≠ '-' := by
      intro he
      rw [he] at hcn
      simp at hcn
    have hplus : c ≠ '+' := by
      intro he
      rw [he] at hcn
      simp at hcn
    unfold atol
    simp only [List.dropWhile, hsp]
    rw [if_neg hminus, if_neg hplus]
    rw [decDigits_all (c :: cs) hd 0]
    rfl

theorem substrFrom_drop6 (d : Str) (hne : d ≠ []) (hlen : d.length < 1000000) :
    substrFrom ('+' :: 'A' :: 'D' :: 'C' :: 'N' :: ':' :: d) (5 + 1) = d := by
  have hd1 : 1 ≤ d.length := by
    cases d
    · exact absurd rfl hne
    · simp
  have hlen6 : ('+' :: 'A' :: 'D' :: 'C' :: 'N' :: ':' :: d).length = 6 + d.length := by
    simp [List.length_cons]
    omega
  have htake : ('+' :: 'A' :: 'D' :: 'C' :: 'N' :: ':' :: d).take (6 + d.length)
      = '+' :: 'A' :: 'D' :: 'C' :: 'N' :: ':' :: d := by
    rw [← hlen6]
    exact List.take_length _
  have h1 : toU32 (5 + 1) = 6 := by decide
  have h2 : toU32 ((6 + d.length : Nat) : Int) = 6 + d.length := by
    unfold toU32
    omega
  have hc1 : ¬(6 > 6 + d.length) := by omega
  have hc2 : ¬(6 ≥ 6 + d.length) := by omega
  have hc3 : ¬(6 + d.length > 6 + d.length) := by omega
  simp only [substrFrom, substrA, hlen6, h1, h2, if_neg hc1, if_neg hc2, if_neg hc3]
  rw [htake]
  rfl

/-- Claim C7, counterexample: from the reachable state awaiting the count,
the line `+ADCN:32768` carries the positive decimal count 32768, yet the
program stores the 16-bit-wrapped value -32768 in `recentDeviceCount` and
takes the non-positive branch: it sends `AT+CMODE=1` and enters
`SETTINGCONNECTIONMODE`, not `AT+MRAD`/`COUNTEDRECENTDEVICES` as the claim
demands for every positive count. -/
theorem adcn_count_wraps_at_32768 :
    (Ino.runEvents Ino.initState Ino.countingEvs).map
        (fun s => s.COUNTINGRECENTDEVICES) = some true
    ∧ 0 < decValue ("32768".toList)
    ∧ (Ino.runEvents Ino.initState
          (Ino.countingEvs ++ [Ino.Ev.fromModule ("+ADCN:32768".toList)])).map
        (fun s => (s.recentDeviceCount, s.COUNTEDRECENTDEVICES,
                   s.SETTINGCONNECTIONMODE, s.sent.getLast?))
      = some (-32768, false, true, some ("AT+CMODE=1".toList)) :=
  ⟨rfl, by decide, rfl⟩

/-- Claim C7, amended: a well-formed `+ADCN:<n>` line in phase
`COUNTINGRECENTDEVICES` stores not the decimal value of the substring after
the first colon but that value wrapped through the 32-bit `long` of `toInt`
and then the 16-bit AVR `int` of `recentDeviceCount`; if the wrapped count
is positive the machine sends `AT+MRAD` and enters `COUNTEDRECENTDEVICES`,
and if it is zero or (by wrap) negative it sends `AT+CMODE=1` and enters
`SETTINGCONNECTIONMODE`. For counts up to 32767 the wrap is the identity and
the claimed routing holds. -/
theorem adcn_count_routing (s : Ino.State) (d : Str)
    (hset : s.SETTINGHC05MODE = false) (hini : s.INITIALIZING = false)
    (hf : s.COUNTINGRECENTDEVICES = true)
    (hne : d ≠ []) (hd : ∀ c ∈ d, isDigitC c = true)
    (hlen : d.length < 1000000) :
    (wrap16 (decValue d) ≤ 0 →
      Ino.moduleStep s (("+ADCN:".toList) ++ d)
        = some (Ino.SetConnectionMode 1
            {s with COUNTINGRECENTDEVICES := false,
                    recentDeviceCount := wrap16 (decValue d)})
      ∧ (Ino.SetConnectionMode 1
            {s with COUNTINGRECENTDEVICES := false,
                    recentDeviceCount := wrap16 (decValue d)}).SETTINGCONNECTIONMODE = true
      ∧ (Ino.SetConnectionMode 1
            {s with COUNTINGRECENTDEVICES := false,
                    recentDeviceCount := wrap16 (decValue d)}).sent
          = s.sent ++ [("AT+CMODE=1".toList)])
    ∧ (0 < wrap16 (decValue d) →
      Ino.moduleStep s (("+ADCN:".toList) ++ d)
        = some (Ino.CheckMostRecentAuthenticatedDevice
            {s with COUNTINGRECENTDEVICES := false,
                    recentDeviceCount := wrap16 (decValue d)})
      ∧ (Ino.CheckMostRecentAuthenticatedDevice
            {s with COUNTINGRECENTDEVICES := false,
                    recentDeviceCount := wrap16 (decValue d)}).COUNTEDRECENTDEVICES = true
      ∧ (Ino.CheckMostRecentAuthenticatedDevice
            {s with COUNTINGRECENTDEVICES := false,
                    recentDeviceCount := wrap16 (decValue d)}).sent
          = s.sent ++ [("AT+MRAD".toList)]) := by
  have hline : ("+ADCN:".toList) ++ d = '+' :: 'A' :: 'D' :: 'C' :: 'N' :: ':' :: d := rfl
  have hsw : startsWithC ('+' :: 'A' :: 'D' :: 'C' :: 'N' :: ':' :: d) ("+ADCN".toList)
      = true := by simp [startsWithC]
  have hidx : indexOfC ('+' :: 'A' :: 'D' :: 'C' :: 'N' :: ':' :: d) ':' = 5 := by
    simp [indexOfC]
  have hsub := substrFrom_drop6 d hne hlen
  have hatol := atol_digits d hne hd
  have hj : Char.toNat '+' ≠ 0 ∧ Char.toNat '+' < 127 := by decide
  constructor
  · intro hn
    refine ⟨?_, rfl, rfl⟩
    rw [hline]
    unfold Ino.moduleStep Ino.dispatch Ino.dispatchCounting
    simp only [hset, hini, hf, hsw, hidx, hsub, hatol, wrap16_wrap32,
               Ino.flushOkString, if_pos hj]
    rw [if_neg (show ¬(wrap16 (decValue d) > 0) from by omega)]
    simp
  · intro hn
    refine ⟨?_, rfl, rfl⟩
    rw [hline]
    unfold Ino.moduleStep Ino.dispatch Ino.dispatchCounting
    simp only [hset, hini, hf, hsw, hidx, hsub, hatol, wrap16_wrap32,
               Ino.flushOkString, if_pos hj]
    rw [if_pos (show wrap16 (decValue d) > 0 from hn)]
    simp

theorem adcn_count_routing_witness :
    Ino.moduleStep {Ino.boot with CHECKSTATE := false, COUNTINGRECENTDEVICES := true}
        (("+ADCN:".toList) ++ ("2".toList))
      = some (Ino.CheckMostRecentAuthenticatedDevice
          {({Ino.boot with CHECKSTATE := false, COUNTINGRECENTDEVICES := true} : Ino.State)
            with COUNTINGRECENTDEVICES := false,
                 recentDeviceCount := wrap16 (decValue ("2".toList))})
    ∧ Ino.moduleStep {Ino.boot with CHECKSTATE := false, COUNTINGRECENTDEVICES := true}
        (("+ADCN:".toList) ++ ("0".toList))
      = some (Ino.SetConnectionMode 1
          {({Ino.boot with CHECKSTATE := false, COUNTINGRECENTDEVICES := true} : Ino.State)
            with COUNTINGRECENTDEVICES := false,
                 recentDeviceCount := wrap16 (decValue ("0".toList))}) := by
  have h2 := adcn_count_routing
    {Ino.boot with CHECKSTATE := false, COUNTINGRECENTDEVICES := true}
    ("2".toList) rfl rfl rfl (by decide) (by decide) (by decide)
  have h0 := adcn_count_routing
    {Ino.boot with CHECKSTATE := false, COUNTINGRECENTDEVICES := true}
    ("0".toList) rfl rfl rfl (by decide) (by decide) (by decide)
  exact ⟨(h2.2 (by decide)).1, (h0.1 (by decide)).1⟩

theorem skipDupes_spec : ∀ (n : Nat) (devs : List Str) (count i : Nat),
    count - i ≤ n → 1 ≤ i → i < count → count ≤ devs.length →
    ∃ j, Ino.skipDupes devs count i = some j ∧ i ≤ j ∧ j < count
      ∧ (∀ k, i ≤ k → k < j → devs.get? k = devs.get? (k - 1))
      ∧ (devs.get? j ≠ devs.get? (j - 1) ∨ j = count - 1) := by
  intro n
  induction n with
  | zero =>
    intro devs count i hfuel hi1 hic hcl
    omega
  | succ n ih =>
    intro devs count i hfuel hi1 hic hcl
    have hil : i < devs.length := by omega
    have hil1 : i - 1 < devs.length := by omega
    have ha := List.get?_eq_get hil
    have hb := List.get?_eq_get hil1
    rw [Ino.skipDupes, ha, hb]
    simp only
    by_cases hab : devs.get ⟨i, hil⟩ = devs.get ⟨i - 1, hil1⟩
    · rw [if_pos hab]
      by_cases hlt : i < count - 1
      · rw [dif_pos hlt]
        obtain ⟨j, hj, hij, hjc, hall, hstop⟩ :=
          ih devs count (i + 1) (by omega) (by omega) (by omega) hcl
        refine ⟨j, hj, by omega, hjc, ?_, hstop⟩
        intro k hk1 hk2
        rcases Nat.eq_or_lt_of_le hk1 with he | hlt2
        · rw [← he, ha, hb, hab]
        · exact hall k (by omega) hk2
      · rw [dif_neg hlt]
        exact ⟨i, rfl, le_refl i, hic, fun k hk1 hk2 => by omega, Or.inr (by omega)⟩
    · rw [if_neg hab]
      refine ⟨i, rfl, le_refl i, hic, fun k hk1 hk2 => by omega, Or.inl ?_⟩
      rw [ha, hb]
      intro hcon
      exact hab (by injection hcon)

/-- Claim C9: on an "N" (No) answer during confirmation the candidate index
strictly increases (never revisiting a declined index); when a next candidate
is presented (confirmation stays open) it is the first subsequent entry whose
address differs from its immediate predecessor, with every skipped entry
equal to its predecessor; when the candidates are exhausted the machine
restarts the inquiry. -/
theorem no_answer_advances (s : Ino.State) (rest : Str)
    (hf : s.CONFRONTINGUSER = true)
    (hcnt : s.deviceCount ≤ s.devices.length) :
    ∃ s1, Ino.userStep s ('N' :: rest) = some s1
      ∧ s.currentDeviceIdx < s1.currentDeviceIdx
      ∧ (s1.CONFRONTINGUSER = true →
          s1.currentDeviceIdx < s.deviceCount
          ∧ s.devices.get? s1.currentDeviceIdx ≠ s.devices.get? (s1.currentDeviceIdx - 1)
          ∧ (∀ k, s.currentDeviceIdx < k → k < s1.currentDeviceIdx →
              s.devices.get? k = s.devices.get? (k - 1))
          ∧ (∃ a, s.devices.get? s1.currentDeviceIdx = some a
              ∧ s1.currentDeviceAddr = a
              ∧ s1.sent = s.sent ++ [(("AT+RNAME ".toList) ++ a)]))
      ∧ (s1.CONFRONTINGUSER = false →
          s1.INITIATINGINQUIRY = true
          ∧ s1.sent = s.sent ++ [("AT+INIT".toList)]) := by
  have hsy : startsWithC ('N' :: rest) ("Y".toList) = false := by simp [startsWithC]
  have hsn : startsWithC ('N' :: rest) ("N".toList) = true := by simp [startsWithC]
  unfold Ino.userStep
  rw [if_pos hf, if_neg (by rw [hsy]; exact Bool.false_ne_true), if_pos hsn]
  unfold Ino.answerNo
  by_cases hlt : s.currentDeviceIdx + 1 < s.deviceCount
  · rw [if_pos hlt]
    obtain ⟨j, hj, hij, hjc, hall, hstop⟩ :=
      skipDupes_spec s.deviceCount s.devices s.deviceCount (s.currentDeviceIdx + 1)
        (by omega) (by omega) hlt hcnt
    rw [hj]
    simp only
    have hjl : j < s.devices.length := by omega
    have hjl1 : j - 1 < s.devices.length := by omega
    have haj := List.get?_eq_get hjl
    have hbj := List.get?_eq_get hjl1
    rw [haj, hbj]
    simp only
    by_cases hab : s.devices.get ⟨j, hjl⟩ = s.devices.get ⟨j - 1, hjl1⟩
    · rw [if_neg (fun hne => hne hab)]
      refine ⟨_, rfl, by simp [Ino.InitiateInquiry, Ino.ConfrontUserWithDevice]; omega, ?_, ?_⟩
      · intro hcon
        simp [Ino.InitiateInquiry] at hcon
      · intro _
        exact ⟨rfl, rfl⟩
    · rw [if_pos hab]
      refine ⟨_, rfl, by simp [Ino.InitiateInquiry, Ino.ConfrontUserWithDevice]; omega, ?_, ?_⟩
      · intro _
        refine ⟨by simp [Ino.ConfrontUserWithDevice]; omega, ?_, ?_, ?_⟩
        · simp only [Ino.ConfrontUserWithDevice]
          rw [haj, hbj]
          intro hcon
          exact hab (by injection hcon)
        · intro k hk1 hk2
          simp only [Ino.ConfrontUserWithDevice] at hk2
          exact hall k (by omega) (by simpa using hk2)
        · exact ⟨s.devices.get ⟨j, hjl⟩, by simp [Ino.ConfrontUserWithDevice, haj],
            rfl, rfl⟩
      · intro hcon
        simp [Ino.ConfrontUserWithDevice] at hcon
  · rw [if_neg hlt]
    refine ⟨_, rfl, by simp [Ino.InitiateInquiry], ?_, ?_⟩
    · intro hcon
      simp [Ino.InitiateInquiry] at hcon
    · intro _
      exact ⟨rfl, rfl⟩

theorem no_answer_advances_witness :
    ∃ s1, Ino.userStep Ino.c9state ('N' :: ([] : Str)) = some s1
      ∧ Ino.c9state.currentDeviceIdx < s1.currentDeviceIdx
      ∧ (s1.CONFRONTINGUSER = true →
          s1.currentDeviceIdx < Ino.c9state.deviceCount
          ∧ Ino.c9state.devices.get? s1.currentDeviceIdx
              ≠ Ino.c9state.devices.get? (s1.currentDeviceIdx - 1)
          ∧ (∀ k, Ino.c9state.currentDeviceIdx < k → k < s1.currentDeviceIdx →
              Ino.c9state.devices.get? k = Ino.c9state.devices.get? (k - 1))
          ∧ (∃ a, Ino.c9state.devices.get? s1.currentDeviceIdx = some a
              ∧ s1.currentDeviceAddr = a
              ∧ s1.sent = Ino.c9state.sent ++ [(("AT+RNAME ".toList) ++ a)]))
      ∧ (s1.CONFRONTINGUSER = false →
          s1.INITIATINGINQUIRY = true
          ∧ s1.sent = Ino.c9state.sent ++ [("AT+INIT".toList)]) :=
  no_answer_advances Ino.c9state [] rfl (by decide)

/-- Claim C10: in the enum-state variant, while neither mode-switching nor
initializing, a module line arriving on a pass whose `PROGRAMSTATECHANGED`
flag is false drives no transition unless the current phase is
`INQUIRINGDEVICES` or `CONFRONTINGUSER`: in every other phase the line is
printed and the state is left unchanged, even when it is the awaited
response. -/
theorem unchanged_line_ignored (s : EnumV.State) (line : Str)
    (hset : s.SETTINGHC05MODE = false) (hini : s.INITIALIZING = false)
    (hch : s.PROGRAMSTATECHANGED = false)
    (h1 : s.PROGRAMSTATE ≠ EnumV.PState.INQUIRINGDEVICES)
    (h2 : s.PROGRAMSTATE ≠ EnumV.PState.CONFRONTINGUSER) :
    EnumV.moduleStep s line = some s := by
  unfold EnumV.moduleStep
  rw [if_neg (by simp [hset]), if_neg (by simp [hini])]
  cases line with
  | nil => rfl
  | cons c cs =>
    simp only
    split_ifs with hjunk hch2
    · rw [hch] at hch2
      cases hch2
    · unfold EnumV.dispatchUnchanged
      cases hps : s.PROGRAMSTATE <;>
        first
          | rfl
          | exact absurd hps h1
          | exact absurd hps h2
    · rfl

theorem unchanged_line_ignored_witness :
    EnumV.moduleStep EnumV.w10state ("+ADCN:3".toList) = some EnumV.w10state :=
  unchanged_line_ignored EnumV.w10state ("+ADCN:3".toList) rfl rfl rfl
    (by decide) (by decide)

theorem indexOfC_cons_ne (c : Char) (cs : Str) (ch : Char) (h : c ≠ ch)
    (k : Int) (hk : indexOfC cs ch = k) (hk0 : 0 ≤ k) :
    indexOfC (c :: cs) ch = k + 1 := by
  unfold indexOfC
  rw [if_neg h, hk]
  have : k ≠ -1 := by omega
  split
  · omega
  · rfl

theorem indexOfC_append_right (l r : Str) (ch : Char) (hl : ch ∉ l)
    (k : Int) (hk : indexOfC r ch = k) (hk0 : 0 ≤ k) :
    indexOfC (l ++ r) ch = l.length + k := by
  induction l with
  | nil => simpa using hk
  | cons c cs ih =>
    have hc : c ≠ ch := fun he => hl (he ▸ List.mem_cons_self c cs)
    have hcs : ch ∉ cs := fun hm => hl (List.mem_cons_of_mem c hm)
    have hrec := ih hcs
    rw [List.cons_append]
    rw [indexOfC_cons_ne c (cs ++ r) ch hc (cs.length + k) hrec (by omega)]
    simp [List.length_cons]
    omega

theorem substrA_error (c : Str) (hlen : c.length < 1000000) :
    substrA (("ERROR(".toList) ++ c ++ [')']) (5 + 1) (6 + (c.length : Int)) = c := by
  have hlen1 : ((("ERROR(".toList) ++ c ++ [')'])).length = 7 + c.length := by
    simp
    omega
  have h1 : toU32 (5 + 1) = 6 := by decide
  have h2 : toU32 (6 + (c.length : Int)) = 6 + c.length := by
    unfold toU32
    omega
  have hc1 : ¬(6 > 6 + c.length) := by omega
  have hc2 : ¬(6 ≥ 7 + c.length) := by omega
  have hc3 : ¬(6 + c.length > 7 + c.length) := by omega
  simp only [substrA, hlen1, h1, h2, if_neg hc1, if_neg hc2, if_neg hc3]
  have htake : ((("ERROR(".toList) ++ c) ++ [')']).take (6 + c.length)
      = ("ERROR(".toList) ++ c := by
    have he : 6 + c.length = ((("ERROR(".toList) ++ c)).length := by
      simp
      omega
    rw [he, List.take_left]
  rw [htake]
  have h6 : (6 : Nat) = (("ERROR(".toList)).length := rfl
  rw [h6, List.drop_left]

/-- Claim C8, amended (enum-state variant): on an `ERROR(code)` line in phase
`INITIATINGINQUIRY`, exactly the benign scan-already-initiated code "17" is
treated as success — the machine sends `AT+INQ` and enters
`INQUIRINGDEVICES` — while every other code is looked up in the error table
and reported with the state left unchanged (the sequence does not resume).
(In the boolean-flag variant every `ERROR` line resumes the inquiry; see the
counterexample.) -/
theorem enum_error17_only_resumes (s : EnumV.State) (c : Str)
    (hset : s.SETTINGHC05MODE = false) (hini : s.INITIALIZING = false)
    (hch : s.PROGRAMSTATECHANGED = true)
    (hps : s.PROGRAMSTATE = EnumV.PState.INITIATINGINQUIRY)
    (hnp : ')' ∉ c) (hlen : c.length < 1000000) :
    EnumV.moduleStep s (("ERROR(".toList) ++ c ++ [')'])
      = (if c = ("17".toList) then some (EnumV.InquireDevices s) else some s)
    ∧ (EnumV.InquireDevices s).PROGRAMSTATE = EnumV.PState.INQUIRINGDEVICES
    ∧ (EnumV.InquireDevices s).sent = s.sent ++ [("AT+INQ".toList)] := by
  refine ⟨?_, rfl, rfl⟩
  have hline : ("ERROR(".toList) ++ c ++ [')']
      = 'E' :: 'R' :: 'R' :: 'O' :: 'R' :: '(' :: (c ++ [')']) := by
    simp
  have hok : startsWithC ('E' :: 'R' :: 'R' :: 'O' :: 'R' :: '(' :: (c ++ [')']))
      ("OK".toList) = false := by simp [startsWithC]
  have herr : startsWithC ('E' :: 'R' :: 'R' :: 'O' :: 'R' :: '(' :: (c ++ [')']))
      ("ERROR".toList) = true := by simp [startsWithC]
  have hidx1 : indexOfC ('E' :: 'R' :: 'R' :: 'O' :: 'R' :: '(' :: (c ++ [')'])) '('
      = 5 := by simp [indexOfC]
  have hnl : ')' ∉ ("ERROR(".toList) ++ c := by
    intro hm
    rcases List.mem_append.mp hm with hm | hm
    · simp at hm
    · exact hnp hm
  have hidx2 : indexOfC ((("ERROR(".toList) ++ c) ++ [')']) ')'
      = ((("ERROR(".toList) ++ c)).length + 0 :=
    indexOfC_append_right _ [')'] ')' hnl 0 (by simp [indexOfC]) (by omega)
  have hidx2a : indexOfC ('E' :: 'R' :: 'R' :: 'O' :: 'R' :: '(' :: (c ++ [')'])) ')'
      = 6 + (c.length : Int) := by
    rw [← hline, hidx2]
    simp
    omega
  have hsub := substrA_error c hlen
  have hsub2 := hsub
  rw [hline] at hsub2
  have hj : Char.toNat 'E' ≠ 0 ∧ Char.toNat 'E' < 127 := by decide
  rw [hline]
  unfold EnumV.moduleStep EnumV.dispatchChanged
  simp only [hset, hini, hch, hps, if_pos hj, hok, herr, hidx1, hidx2a, hsub, hsub2]
  by_cases h17 : c = ("17".toList)
  · simp [h17]
  · obtain ⟨m, hm⟩ := Option.isSome_iff_exists.mp (getErrorMessage_isSome c)
    simp [h17, hm]

/-- Claim C8, counterexample (boolean-flag variant): in `INITIATINGINQUIRY`
an `ERROR(05)` line — code 05 is not the benign code 17 — nevertheless
resumes the sequence: the machine enters `INQUIRINGDEVICES` and sends
`AT+INQ` without consulting the error table. -/
theorem flag_variant_error_resumes :
    Ino.moduleStep {Ino.boot with CHECKSTATE := false, INITIATINGINQUIRY := true}
        ("ERROR(05)".toList)
      = some (Ino.InquireDevices
          {({Ino.boot with CHECKSTATE := false, INITIATINGINQUIRY := true} : Ino.State)
            with INITIATINGINQUIRY := false})
    ∧ (Ino.InquireDevices
          {({Ino.boot with CHECKSTATE := false, INITIATINGINQUIRY := true} : Ino.State)
            with INITIATINGINQUIRY := false}).INQUIRINGDEVICES = true
    ∧ (Ino.InquireDevices
          {({Ino.boot with CHECKSTATE := false, INITIATINGINQUIRY := true} : Ino.State)
            with INITIATINGINQUIRY := false}).sent = [("AT+INQ".toList)] :=
  ⟨rfl, rfl, rfl⟩

theorem enum_error17_only_resumes_witness :
    EnumV.moduleStep EnumV.w8state (("ERROR(".toList) ++ ("05".toList) ++ [')'])
        = some EnumV.w8state
    ∧ EnumV.moduleStep EnumV.w8state (("ERROR(".toList) ++ ("17".toList) ++ [')'])
        = some (EnumV.InquireDevices EnumV.w8state) := by
  have h1 := enum_error17_only_resumes EnumV.w8state ("05".toList)
    rfl rfl rfl rfl (by decide) (by decide)
  have h2 := enum_error17_only_resumes EnumV.w8state ("17".toList)
    rfl rfl rfl rfl (by decide) (by decide)
  constructor
  · have hh := h1.1
    rw [if_neg (by decide)] at hh
    exact hh
  · have hh := h2.1
    rw [if_pos rfl] at hh
    exact hh
